import Mathlib

/- Kernel evaluation of sample states requires unfolding the rational
operations, which Mathlib marks irreducible; reducibility is elaborator
metadata and does not affect proof checking. -/
set_option allowUnsafeReducibility true
attribute [semireducible] Rat.inv Rat.mul Rat.add

/-!
Shallow embedding of the bond-calculation service of the repository
(`lib/services/bonds/BondCalculations.ts`, together with the input builder of
`app/emisor/create-bond/components/Step4Dynamic.tsx`).  Monetary amounts and
rates (`number` / `Decimal` in the source) are modelled as rationals, dates
and timestamps as integers, and the Prisma-backed database as an explicit
record of tables.  Fallible code is modelled with `Except`/`Option`.
-/

namespace BondSys

/-- Grace-period codes `'S' | 'P' | 'T'` used throughout the source. -/
inductive GraceType where
  | S
  | P
  | T
deriving DecidableEq, Repr

/-- The string code of a grace type, as stored in the database JSON. -/
def GraceType.code : GraceType → String
  | .S => "S"
  | .P => "P"
  | .T => "T"

/-- Prisma enum `bond_status`. -/
inductive BondStatus where
  | DRAFT
  | ACTIVE
  | EXPIRED
deriving DecidableEq, Repr

/-- Prisma enum `MetricsRole`. -/
inductive MetricsRole where
  | EMISOR
  | BONISTA
deriving DecidableEq, Repr

/-- Coupon frequencies (`FrequenciaCupon` of `lib/types/calculations`). -/
inductive Frecuencia where
  | mensual
  | bimestral
  | trimestral
  | cuatrimestral
  | semestral
  | anual
deriving DecidableEq, Repr

/-- Rate kind (`'efectiva' | 'nominal'`). -/
inductive TipoTasa where
  | efectiva
  | nominal
deriving DecidableEq, Repr

/-- Issuer cost percentages attached to a bond (`bond.costs`). -/
structure Costs where
  estructuracionPct : ℚ
  colocacionPct : ℚ
  flotacionPct : ℚ
  cavaliPct : ℚ
deriving DecidableEq, Repr

/-- The bond row (fields of `BondWithFullRelations` read by the service).
`costs` is the optional relation checked by `convertBondToCalculationInputs`. -/
structure Bond where
  id : String
  name : String
  valorNominal : ℚ
  valorComercial : ℚ
  numAnios : ℤ
  frecuenciaCupon : Frecuencia
  baseDias : ℕ
  tipoTasa : TipoTasa
  periodicidadCapitalizacion : Frecuencia
  tasaAnual : ℚ
  impuestoRenta : ℚ
  fechaEmision : ℤ
  primaVencimiento : ℚ
  status : BondStatus
  costs : Option Costs
deriving DecidableEq, Repr

/-- One element of a stored JSON series.  Elements of a persisted
`inflacionSerie` / `graciaSerie` may be finite numbers, non-finite numbers,
strings (possibly containing the corruption marker `'['`), or other JSON
values. -/
inductive RawElem where
  | num (q : ℚ)
  | nan
  | str (s : String)
  | other
deriving DecidableEq, Repr

/-- A stored JSON series: either an array of elements or some non-array value
(the case `!Array.isArray(...)` in the source; a string that fails
`JSON.parse` also lands here). -/
inductive RawSeries where
  | arr (l : List RawElem)
  | notArr
deriving DecidableEq, Repr

/-- The `calculationInputs` row holding the persisted series. -/
structure CalcInputsRecord where
  id : String
  bondId : String
  inflacionSerie : RawSeries
  graciaSerie : RawSeries
deriving DecidableEq, Repr

/-- One generated cash-flow period as produced by the calculator
(`CalculationResult['flujos'][i]`). -/
structure FlowOut where
  periodo : ℤ
  fecha : ℤ
  inflacionAnual : Option ℚ
  inflacionSemestral : Option ℚ
  gracia : GraceType
  bonoCapital : Option ℚ
  bonoIndexado : Option ℚ
  cupon : Option ℚ
  amortizacion : Option ℚ
  cuota : Option ℚ
  prima : Option ℚ
  escudoFiscal : Option ℚ
  flujoEmisor : Option ℚ
  flujoEmisorConEscudo : Option ℚ
  flujoBonista : Option ℚ
  flujoActualizado : Option ℚ
  faPlazoPonderado : Option ℚ
  factorConvexidad : Option ℚ
deriving DecidableEq, Repr

/-- A persisted `cashFlow` row (`Prisma.CashFlowCreateManyInput`). -/
structure CashFlowRecord where
  bondId : String
  periodo : ℤ
  fecha : ℤ
  inflacionAnual : Option ℚ
  inflacionSemestral : Option ℚ
  periodoGracia : GraceType
  bonoCapital : Option ℚ
  bonoIndexado : Option ℚ
  cupon : Option ℚ
  amortizacion : Option ℚ
  cuota : Option ℚ
  prima : Option ℚ
  escudoFiscal : Option ℚ
  flujoEmisor : Option ℚ
  flujoEmisorConEscudo : Option ℚ
  flujoBonista : Option ℚ
  flujoActualizado : Option ℚ
  faPlazoPonderado : Option ℚ
  factorConvexidad : Option ℚ
deriving DecidableEq, Repr

/-- A persisted `financialMetrics` row (one per bond and role). -/
structure FinancialMetricsRecord where
  bondId : String
  role : MetricsRole
  precioActual : ℚ
  utilidadPerdida : ℚ
  van : ℚ
  tir : ℚ
  tcea : Option ℚ
  tceaConEscudo : Option ℚ
  trea : Option ℚ
  duracion : ℚ
  duracionModificada : ℚ
  convexidad : ℚ
  totalRatiosDecision : ℚ
  fechaCalculo : ℤ
  createdAt : ℤ
deriving DecidableEq, Repr

/-- A persisted `calculationResult` row (unique per bond and inputs record). -/
structure CalcResultRecord where
  bondId : String
  calculationInputsId : String
  createdAt : ℤ
deriving DecidableEq, Repr

/-- The database state read and written by the service: the tables touched by
`BondCalculationsService`. -/
structure DbState where
  bonds : List Bond
  calcInputs : List CalcInputsRecord
  cashFlows : List CashFlowRecord
  metrics : List FinancialMetricsRecord
  calcResults : List CalcResultRecord
deriving DecidableEq, Repr

/-- `bondModel.findById` / `prisma.bond.findUnique`. -/
def findById (s : DbState) (bondId : String) : Option Bond :=
  s.bonds.find? (fun b => b.id == bondId)

/-- `prisma.calculationInputs.findUnique({ where: { bondId } })`. -/
def findCalcInputs (s : DbState) (bondId : String) : Option CalcInputsRecord :=
  s.calcInputs.find? (fun r => r.bondId == bondId)

/-- `prisma.cashFlow.count({ where: { bondId } })`. -/
def countFlows (s : DbState) (bondId : String) : ℕ :=
  (s.cashFlows.filter (fun cf => cf.bondId == bondId)).length

/-- The stored cash-flow schedule of one bond. -/
def cashFlowsOf (s : DbState) (bondId : String) : List CashFlowRecord :=
  s.cashFlows.filter (fun cf => cf.bondId == bondId)

/-- `prisma.financialMetrics.findUnique({ where: { bondId_role } })`. -/
def findMetrics (s : DbState) (bondId : String) (role : MetricsRole) :
    Option FinancialMetricsRecord :=
  s.metrics.find? (fun m => m.bondId == bondId && m.role == role)

/-- The calculation inputs handed to `FinancialCalculator.calculate`
(`CalculationInputs & {id : string}` in the source). -/
structure CalculationInputs where
  id : String
  valorNominal : ℚ
  valorComercial : ℚ
  numAnios : ℤ
  frecuenciaCupon : Frecuencia
  diasPorAno : ℕ
  tipoTasa : TipoTasa
  periodicidadCapitalizacion : Frecuencia
  tasaAnual : ℚ
  tasaDescuento : ℚ
  impuestoRenta : ℚ
  fechaEmision : ℤ
  primaPorcentaje : ℚ
  estructuracionPorcentaje : ℚ
  colocacionPorcentaje : ℚ
  flotacionPorcentaje : ℚ
  cavaliPorcentaje : ℚ
  inflacionSerie : List ℚ
  graciaSerie : List GraceType
deriving DecidableEq, Repr

/-- The metric block of a `CalculationResult` (`result.metricas`). -/
structure MetricasInternas where
  precioActual : ℚ
  utilidadPerdida : ℚ
  tceaEmisor : ℚ
  tceaEmisorConEscudo : ℚ
  treaBonista : ℚ
  duracion : ℚ
  duracionModificada : ℚ
  convexidad : ℚ
  totalRatiosDecision : ℚ
deriving DecidableEq, Repr

/-- The calculator's output (`CalculationResult`; the `intermedios` blob is
not read by any property and is omitted). -/
structure CalculationResult where
  flujos : List FlowOut
  metricas : MetricasInternas
  fechaCalculo : ℤ
deriving DecidableEq, Repr

/-- Issuer block of `BondCalculationResponse.metricas`. -/
structure EmisorMetricasResp where
  precioActual : ℚ
  van : ℚ
  tceaEmisor : ℚ
  tceaEmisorConEscudo : ℚ
  duracion : ℚ
  duracionModificada : ℚ
  convexidad : ℚ
  totalRatiosDecision : ℚ
deriving DecidableEq, Repr

/-- Investor block of `BondCalculationResponse.metricas`. -/
structure BonistaMetricasResp where
  precioActual : ℚ
  van : ℚ
  treaBonista : ℚ
  duracion : ℚ
  duracionModificada : ℚ
  convexidad : ℚ
  totalRatiosDecision : ℚ
deriving DecidableEq, Repr

/-- Both metric blocks of the response. -/
structure MetricasResp where
  emisor : EmisorMetricasResp
  bonista : BonistaMetricasResp
deriving DecidableEq, Repr

/-- `BondCalculationResponse` as returned by the service. -/
structure BondCalculationResponse where
  bondId : String
  success : Bool
  calculatedAt : ℤ
  metricas : MetricasResp
  flowsCount : ℕ
  errors : Option (List String)
deriving DecidableEq, Repr

/-- `CalculateBondRequest` after schema defaults are applied. -/
structure CalculateBondRequest where
  bondId : String
  recalculate : Bool
  saveResults : Bool
deriving DecidableEq, Repr

/-- `getEmptyMetrics`: the all-zero metric blocks used by failure responses. -/
def getEmptyMetrics : MetricasResp :=
  { emisor :=
      { precioActual := 0, van := 0, tceaEmisor := 0, tceaEmisorConEscudo := 0
        duracion := 0, duracionModificada := 0, convexidad := 0
        totalRatiosDecision := 0 }
    bonista :=
      { precioActual := 0, van := 0, treaBonista := 0
        duracion := 0, duracionModificada := 0, convexidad := 0
        totalRatiosDecision := 0 } }

/-- The response built by the `catch` block of `calculateBond`
(and of `calculateQuickMetrics`). -/
def failureResponse (bondId : String) (now : ℤ) (msg : String) :
    BondCalculationResponse :=
  { bondId := bondId, success := false, calculatedAt := now
    metricas := getEmptyMetrics, flowsCount := 0, errors := some [msg] }

/-- `z.string().cuid()`: the zod cuid regex `^c[^\s-]{8,}$` (case
insensitive). -/
def isValidCuid (s : String) : Bool :=
  match s.toList with
  | [] => false
  | c :: rest =>
      (c == 'c' || c == 'C') && rest.length ≥ 8 &&
        rest.all (fun ch => !ch.isWhitespace && ch != '-')

/-- `typeof item === 'string' && item.includes('[')`: the corruption marker
test used both by `validateSeriesConsistency` and by the early detection in
`convertBondToCalculationInputs`. -/
def elemIsBracketString : RawElem → Bool
  | .str s => s.toList.any (fun c => c == '[')
  | _ => false

/-- One inflation element of the in-place repair branch of
`repairInconsistentSeries`: keep finite numbers, replace everything else with
the 3% default. -/
def repairInflacionElem : RawElem → ℚ
  | .num q => q
  | _ => 3 / 100

/-- `['S','P','T'].includes(item)` as a partial decoding of a raw element. -/
def graciaOfElem : RawElem → Option GraceType
  | .str "S" => some .S
  | .str "P" => some .P
  | .str "T" => some .T
  | _ => none

/-- One grace element of the in-place repair branch of
`repairInconsistentSeries`: keep `'S' | 'P' | 'T'`, default to `'S'`. -/
def repairGraciaElem (e : RawElem) : GraceType :=
  (graciaOfElem e).getD .S

/-- The per-series reset test of `repairInconsistentSeries`:
not an array, wrong length, or a bracket-corrupted element. -/
def seriesNeedsReset (xs : RawSeries) (n : ℤ) : Bool :=
  match xs with
  | .notArr => true
  | .arr l => (l.length : ℤ) != n || l.any elemIsBracketString

/-- The repaired inflation series of `repairInconsistentSeries`
(defined for `0 ≤ n`; the caller models `Array(n)` throwing for `n < 0`). -/
def repairInflacionList (xs : RawSeries) (n : ℤ) : List ℚ :=
  if seriesNeedsReset xs n then List.replicate n.toNat (3 / 100)
  else
    match xs with
    | .arr l => l.map repairInflacionElem
    | .notArr => List.replicate n.toNat (3 / 100)

/-- The repaired grace series of `repairInconsistentSeries`. -/
def repairGraciaList (xs : RawSeries) (n : ℤ) : List GraceType :=
  if seriesNeedsReset xs n then List.replicate n.toNat GraceType.S
  else
    match xs with
    | .arr l => l.map repairGraciaElem
    | .notArr => List.replicate n.toNat GraceType.S

/-- The repaired `calculationInputs` row written back by
`repairInconsistentSeries` (numbers stored as JSON numbers, grace codes as
their strings). -/
def repairRecord (rec : CalcInputsRecord) (n : ℤ) : CalcInputsRecord :=
  { rec with
    inflacionSerie := .arr ((repairInflacionList rec.inflacionSerie n).map .num)
    graciaSerie :=
      .arr ((repairGraciaList rec.graciaSerie n).map (fun g => .str g.code)) }

/-- `tx.calculationInputs.update({ where: { bondId }, data })`: `bondId` is
unique, so the single matching row is replaced. -/
def setCalcInputs (s : DbState) (bondId : String) (inf gra : RawSeries) :
    DbState :=
  { s with
    calcInputs := s.calcInputs.map (fun r =>
      if r.bondId == bondId then
        { r with inflacionSerie := inf, graciaSerie := gra }
      else r) }

/-- `repairInconsistentSeries(bondId, expectedLength)`: inside one
transaction, load the row, rebuild both series, and write them back.
`none` models a throw (row missing, or the JS `Array(expectedLength)` call
raising `RangeError` for a negative length), in which case the transaction
rolls back and the state is unchanged. -/
def repairInconsistentSeries (s : DbState) (bondId : String) (n : ℤ) :
    Option DbState :=
  match findCalcInputs s bondId with
  | none => none
  | some rec =>
      if n < 0 then none
      else
        let rec' := repairRecord rec n
        some (setCalcInputs s bondId rec'.inflacionSerie rec'.graciaSerie)

/-- The unchecked TS cast `repairedCalcInputs.inflacionSerie as number[]`
applied after a repair (only ever applied to well-formed repaired data). -/
def castNums : RawSeries → List ℚ
  | .arr l => l.map (fun e => match e with | .num q => q | _ => 0)
  | .notArr => []

/-- The unchecked TS cast `repairedCalcInputs.graciaSerie as
('S'|'P'|'T')[]`. -/
def castGracia : RawSeries → List GraceType
  | .arr l => l.map (fun e => (graciaOfElem e).getD .S)
  | .notArr => []

/-- Element-wise validation of `rawInflacionSerie.map(...)` in the
non-repair branch of `convertBondToCalculationInputs`: every element must be
a finite number. -/
def validateInflacion (l : List RawElem) (i : ℕ) : Except String (List ℚ) :=
  match l with
  | [] => .ok []
  | e :: rest =>
      match e with
      | .num q =>
          match validateInflacion rest (i + 1) with
          | .ok qs => .ok (q :: qs)
          | .error msg => .error msg
      | _ =>
          .error ("inflacionSerie[" ++ toString i ++
            "] must be a finite number.")

/-- Element-wise validation of `rawGraciaSerie.map(...)`: every element must
be `'S'`, `'P'` or `'T'`. -/
def validateGracia (l : List RawElem) (i : ℕ) :
    Except String (List GraceType) :=
  match l with
  | [] => .ok []
  | e :: rest =>
      match graciaOfElem e with
      | some g =>
          match validateGracia rest (i + 1) with
          | .ok gs => .ok (g :: gs)
          | .error msg => .error msg
      | none =>
          .error ("graciaSerie[" ++ toString i ++
            "] must be a valid grace type.")

/-- The record literal assembled at the end of
`convertBondToCalculationInputs` (both branches build the same shape; the
discount rate is the hard-coded `0.045`). -/
def mkInputs (bond : Bond) (costs : Costs) (recId : String)
    (infl : List ℚ) (gracia : List GraceType) : CalculationInputs :=
  { id := recId
    valorNominal := bond.valorNominal
    valorComercial := bond.valorComercial
    numAnios := bond.numAnios
    frecuenciaCupon := bond.frecuenciaCupon
    diasPorAno := bond.baseDias
    tipoTasa := bond.tipoTasa
    periodicidadCapitalizacion := bond.periodicidadCapitalizacion
    tasaAnual := bond.tasaAnual
    tasaDescuento := 45 / 1000
    impuestoRenta := bond.impuestoRenta
    fechaEmision := bond.fechaEmision
    primaPorcentaje := bond.primaVencimiento
    estructuracionPorcentaje := costs.estructuracionPct
    colocacionPorcentaje := costs.colocacionPct
    flotacionPorcentaje := costs.flotacionPct
    cavaliPorcentaje := costs.cavaliPct
    inflacionSerie := infl
    graciaSerie := gracia }

/-- The early corruption / length detection of
`convertBondToCalculationInputs`: `hasCorruptInflacion || hasCorruptGracia ||
hasWrongLength || !Array.isArray(infl) || !Array.isArray(gracia)`. -/
def needsRepair (infl gra : RawSeries) (n : ℤ) : Bool :=
  (match infl with | .arr l => l.any elemIsBracketString | .notArr => false) ||
  (match gra with | .arr l => l.any elemIsBracketString | .notArr => false) ||
  (match infl with | .arr l => (l.length : ℤ) != n | .notArr => false) ||
  (match gra with | .arr l => (l.length : ℤ) != n | .notArr => false) ||
  (match infl with | .arr _ => false | .notArr => true) ||
  (match gra with | .arr _ => false | .notArr => true)

/-- Conversion of one `calculationInputs` row: the repair-or-validate core of
`convertBondToCalculationInputs`.  Returns the inputs together with the
repaired row to persist (`none` when no repair was needed). -/
def convertRecord (bond : Bond) (costs : Costs) (rec : CalcInputsRecord) :
    Except String (CalculationInputs × Option CalcInputsRecord) :=
  if needsRepair rec.inflacionSerie rec.graciaSerie bond.numAnios then
    if bond.numAnios < 0 then
      .error ("Failed to repair corrupted data for bond " ++ bond.id)
    else
      let rec' := repairRecord rec bond.numAnios
      .ok (mkInputs bond costs rec'.id (castNums rec'.inflacionSerie)
        (castGracia rec'.graciaSerie), some rec')
  else
    match rec.inflacionSerie, rec.graciaSerie with
    | .arr li, .arr lg =>
        match validateInflacion li 0 with
        | .error msg => .error msg
        | .ok infl =>
            match validateGracia lg 0 with
            | .error msg => .error msg
            | .ok gracia => .ok (mkInputs bond costs rec.id infl gracia, none)
    | .notArr, _ => .error ("inflacionSerie must be an array for bond " ++ bond.id)
    | _, .notArr => .error ("graciaSerie must be an array for bond " ++ bond.id)

/-- `convertBondToCalculationInputs(bond)`: load the `calculationInputs`
row, check the costs relation, auto-repair malformed series (persisting the
repaired row and recomputing from it), or validate and convert the stored
series.  Errors are thrown before any committed write (the repair
transaction rolls back on failure), so they leave the state unchanged. -/
def convertBondToCalculationInputs (bond : Bond) (s : DbState) :
    Except String (CalculationInputs × DbState) :=
  match bond.costs with
  | none => .error ("Costes no definidos para bono " ++ bond.id)
  | some costs =>
      match findCalcInputs s bond.id with
      | none =>
          .error ("Registro CalculationInputs no encontrado para bono " ++ bond.id)
      | some rec =>
          match convertRecord bond costs rec with
          | .error msg => .error msg
          | .ok (inputs, none) => .ok (inputs, s)
          | .ok (inputs, some rec') =>
              .ok (inputs, setCalcInputs s bond.id rec'.inflacionSerie
                rec'.graciaSerie)

/-- `validateBondForCalculation(bond)`: collect the four input checks and
throw their joined message when any fails (`Decimal.isNegative() ||
Decimal.isZero()` is `≤ 0`).  `none` means the bond passed. -/
def validateBondForCalculation (bond : Bond) : Option String :=
  let errors :=
    (if bond.valorNominal ≤ 0 then ["Valor nominal inválido"] else []) ++
    (if bond.valorComercial ≤ 0 then ["Valor comercial inválido"] else []) ++
    (if bond.numAnios ≤ 0 then ["Número de años inválido"] else []) ++
    (if bond.tasaAnual < 0 then ["Tasa anual inválida"] else [])
  if errors = [] then none
  else some ("Bono inválido para cálculo: " ++ String.intercalate ", " errors)

/-- `getExistingCalculation(bondId)`: return the stored metrics as a
successful response when the bond has at least one stored flow and metrics
for both roles (`tcea`/`tceaConEscudo`/`trea` default to `0` when null);
`calculatedAt` is the issuer row's `fechaCalculo`. -/
def getExistingCalculation (s : DbState) (bondId : String) :
    Option BondCalculationResponse :=
  let flowsCount := countFlows s bondId
  match findMetrics s bondId .EMISOR, findMetrics s bondId .BONISTA with
  | some em, some bm =>
      if flowsCount > 0 then
        some
          { bondId := bondId, success := true, calculatedAt := em.fechaCalculo
            metricas :=
              { emisor :=
                  { precioActual := em.precioActual, van := em.van
                    tceaEmisor := em.tcea.getD 0
                    tceaEmisorConEscudo := em.tceaConEscudo.getD 0
                    duracion := em.duracion
                    duracionModificada := em.duracionModificada
                    convexidad := em.convexidad
                    totalRatiosDecision := em.totalRatiosDecision }
                bonista :=
                  { precioActual := bm.precioActual, van := bm.van
                    treaBonista := bm.trea.getD 0
                    duracion := bm.duracion
                    duracionModificada := bm.duracionModificada
                    convexidad := bm.convexidad
                    totalRatiosDecision := bm.totalRatiosDecision } }
            flowsCount := flowsCount, errors := none }
      else none
  | _, _ => none

/-- `formatCalculationResponse(bondId, result)`. -/
def formatCalculationResponse (bondId : String) (result : CalculationResult) :
    BondCalculationResponse :=
  { bondId := bondId, success := true, calculatedAt := result.fechaCalculo
    metricas :=
      { emisor :=
          { precioActual := result.metricas.precioActual
            van := result.metricas.utilidadPerdida
            tceaEmisor := result.metricas.tceaEmisor
            tceaEmisorConEscudo := result.metricas.tceaEmisorConEscudo
            duracion := result.metricas.duracion
            duracionModificada := result.metricas.duracionModificada
            convexidad := result.metricas.convexidad
            totalRatiosDecision := result.metricas.totalRatiosDecision }
        bonista :=
          { precioActual := result.metricas.precioActual
            van := result.metricas.precioActual
            treaBonista := result.metricas.treaBonista
            duracion := result.metricas.duracion
            duracionModificada := result.metricas.duracionModificada
            convexidad := result.metricas.convexidad
            totalRatiosDecision := result.metricas.totalRatiosDecision } }
    flowsCount := result.flujos.length, errors := none }

/-- The row built for `tx.cashFlow.createMany` from one generated period. -/
def toCashFlowRecord (bondId : String) (f : FlowOut) : CashFlowRecord :=
  { bondId := bondId, periodo := f.periodo, fecha := f.fecha
    inflacionAnual := f.inflacionAnual
    inflacionSemestral := f.inflacionSemestral
    periodoGracia := f.gracia
    bonoCapital := f.bonoCapital, bonoIndexado := f.bonoIndexado
    cupon := f.cupon, amortizacion := f.amortizacion, cuota := f.cuota
    prima := f.prima, escudoFiscal := f.escudoFiscal
    flujoEmisor := f.flujoEmisor
    flujoEmisorConEscudo := f.flujoEmisorConEscudo
    flujoBonista := f.flujoBonista
    flujoActualizado := f.flujoActualizado
    faPlazoPonderado := f.faPlazoPonderado
    factorConvexidad := f.factorConvexidad }

/-- `tx.financialMetrics.upsert`: replace the row keyed by `(bondId, role)`
or insert it, keeping `createdAt` on update. -/
def upsertMetrics (l : List FinancialMetricsRecord)
    (m : FinancialMetricsRecord) : List FinancialMetricsRecord :=
  if l.any (fun r => r.bondId == m.bondId && r.role == m.role) then
    l.map (fun r =>
      if r.bondId == m.bondId && r.role == m.role then
        { m with createdAt := r.createdAt }
      else r)
  else l ++ [m]

/-- The issuer metrics row written by `saveCalculationResults`. -/
def emisorMetricsRow (bondId : String) (m : MetricasInternas) (fecha now : ℤ) :
    FinancialMetricsRecord :=
  { bondId := bondId, role := .EMISOR
    precioActual := m.precioActual, utilidadPerdida := m.utilidadPerdida
    van := m.utilidadPerdida, tir := m.tceaEmisor
    tcea := some m.tceaEmisor, tceaConEscudo := some m.tceaEmisorConEscudo
    trea := none
    duracion := m.duracion, duracionModificada := m.duracionModificada
    convexidad := m.convexidad, totalRatiosDecision := m.totalRatiosDecision
    fechaCalculo := fecha, createdAt := now }

/-- The investor metrics row written by `saveCalculationResults`. -/
def bonistaMetricsRow (bondId : String) (m : MetricasInternas) (fecha now : ℤ) :
    FinancialMetricsRecord :=
  { bondId := bondId, role := .BONISTA
    precioActual := m.precioActual, utilidadPerdida := m.utilidadPerdida
    van := m.precioActual, tir := m.treaBonista
    tcea := none, tceaConEscudo := none
    trea := some m.treaBonista
    duracion := m.duracion, duracionModificada := m.duracionModificada
    convexidad := m.convexidad, totalRatiosDecision := m.totalRatiosDecision
    fechaCalculo := fecha, createdAt := now }

/-- `tx.calculationResult.upsert`: keyed by `(bondId, calculationInputsId)`;
both branches stamp `createdAt` with the current time (the update branch
sets it explicitly). -/
def upsertCalcResult (l : List CalcResultRecord) (bondId inputsId : String)
    (now : ℤ) : List CalcResultRecord :=
  if l.any (fun r => r.bondId == bondId && r.calculationInputsId == inputsId) then
    l.map (fun r =>
      if r.bondId == bondId && r.calculationInputsId == inputsId then
        { r with createdAt := now }
      else r)
  else l ++ [{ bondId := bondId, calculationInputsId := inputsId, createdAt := now }]

/-- `bondModel.updateStatus(bondId, status)`. -/
def updateBondStatus (s : DbState) (bondId : String) (st : BondStatus) :
    DbState :=
  { s with
    bonds := s.bonds.map (fun b => if b.id == bondId then { b with status := st } else b) }

/-- The post-transaction tail of `saveCalculationResults`: activate the bond
when it is still in draft status. -/
def activateIfDraft (s : DbState) (bondId : String) : DbState :=
  match findById s bondId with
  | some b => if b.status = .DRAFT then updateBondStatus s bondId .ACTIVE else s
  | none => s

/-- `saveCalculationResults(bondId, calculationInputsId, result)`: inside one
transaction, delete the bond's stored flows and insert the new schedule
(only when the result carries at least one flow), upsert both metrics rows
and the `calculationResult` row; afterwards activate a draft bond. -/
def saveCalculationResults (bondId inputsId : String)
    (result : CalculationResult) (now : ℤ) (s : DbState) : DbState :=
  let s1 :=
    if result.flujos.isEmpty then s
    else
      { s with
        cashFlows := s.cashFlows.filter (fun cf => !(cf.bondId == bondId)) ++
          result.flujos.map (toCashFlowRecord bondId) }
  let s2 := { s1 with
    metrics := upsertMetrics
      (upsertMetrics s1.metrics
        (emisorMetricsRow bondId result.metricas result.fechaCalculo now))
      (bonistaMetricsRow bondId result.metricas result.fechaCalculo now) }
  let s3 := { s2 with
    calcResults := upsertCalcResult s2.calcResults bondId inputsId now }
  activateIfDraft s3 bondId

/-- The body of `calculateBond` inside its `try`/`catch`: the `catch` block
turns every internal throw into a `success=false` response built from
`getEmptyMetrics`.  `now` models `new Date()`.  The external
`FinancialCalculator.calculate` is a parameter `calcFn` (a pure function, per
the engine's no-shared-state contract). -/
def calculateBondCaught (calcFn : CalculationInputs → Except String CalculationResult)
    (req : CalculateBondRequest) (now : ℤ) (s : DbState) :
    BondCalculationResponse × DbState :=
  match (if req.recalculate then none else getExistingCalculation s req.bondId) with
  | some resp => (resp, s)
  | none =>
      match findById s req.bondId with
      | none =>
          (failureResponse req.bondId now ("Bono " ++ req.bondId ++ " no encontrado"), s)
      | some bond =>
          match validateBondForCalculation bond with
          | some msg => (failureResponse req.bondId now msg, s)
          | none =>
              match convertBondToCalculationInputs bond s with
              | .error msg => (failureResponse req.bondId now msg, s)
              | .ok (inputs, s') =>
                  match calcFn inputs with
                  | .error msg => (failureResponse req.bondId now msg, s')
                  | .ok result =>
                      if req.saveResults then
                        if inputs.id = "" then
                          (failureResponse req.bondId now
                            "ID de CalculationInputs (registro de DB) no encontrado para guardar resultados.", s')
                        else
                          (formatCalculationResponse req.bondId result,
                            saveCalculationResults req.bondId inputs.id result now s')
                      else (formatCalculationResponse req.bondId result, s')

/-- `calculateBond(request)`: the zod parse sits outside the `try`, so an
invalid cuid propagates as an exception (`.error`); everything else is
caught and becomes a response. -/
def calculateBond (calcFn : CalculationInputs → Except String CalculationResult)
    (req : CalculateBondRequest) (now : ℤ) (s : DbState) :
    Except String (BondCalculationResponse × DbState) :=
  if isValidCuid req.bondId then .ok (calculateBondCaught calcFn req now s)
  else .error "ID de bono inválido"

/-- `processBond` of `calculateMultipleBonds`. -/
def processBond (calcFn : CalculationInputs → Except String CalculationResult)
    (now : ℤ) (s : DbState) (bondId : String) :
    Except String (BondCalculationResponse × DbState) :=
  calculateBond calcFn { bondId := bondId, recalculate := true, saveResults := true } now s

/-- The sequential branch of `calculateMultipleBonds`: an exception escaping
`processBond` aborts the whole loop. -/
def calcSeq (calcFn : CalculationInputs → Except String CalculationResult)
    (now : ℤ) : List String → DbState →
    Except String (List BondCalculationResponse × DbState)
  | [], s => .ok ([], s)
  | id :: rest, s =>
      match processBond calcFn now s id with
      | .error msg => .error msg
      | .ok (r, s') =>
          match calcSeq calcFn now rest s' with
          | .error msg => .error msg
          | .ok (rs, s'') => .ok (r :: rs, s'')

/-- The entry appended for a rejected promise in the parallel branch: the
`findIndex` on `_promise` never matches, so the bond id degenerates to
`'unknown_in_batch'`. -/
def unknownBatchFailure (now : ℤ) (msg : String) : BondCalculationResponse :=
  failureResponse "unknown_in_batch" now msg

/-- One `Promise.allSettled` batch of the parallel branch, linearized:
each settled outcome contributes exactly one response, a rejection being
replaced by the `'unknown_in_batch'` failure entry. -/
def calcBatch (calcFn : CalculationInputs → Except String CalculationResult)
    (now : ℤ) : List String → DbState →
    List BondCalculationResponse × DbState
  | [], s => ([], s)
  | id :: rest, s =>
      match processBond calcFn now s id with
      | .ok (r, s') =>
          let (rs, s'') := calcBatch calcFn now rest s'
          (r :: rs, s'')
      | .error msg =>
          let (rs, s'') := calcBatch calcFn now rest s
          (unknownBatchFailure now msg :: rs, s'')

/-- The batching loop `for (let i = 0; i < bondIds.length; i += batchSize)`:
consecutive slices of at most `k` ids.  For `k = 0` the source loop never
advances; the model returns no batches (callers pass a positive size, the
default being 5). -/
def chunksOf (k : ℕ) : List String → List (List String)
  | [] => []
  | x :: xs =>
      if _h : k = 0 then []
      else (x :: xs).take k :: chunksOf k ((x :: xs).drop k)
termination_by l => l.length
decreasing_by
  simp only [List.length_drop, List.length_cons]
  omega

/-- The batch loop body of the parallel branch: run the batches in order,
appending each batch's settled responses to the accumulated results. -/
def calcParGo (calcFn : CalculationInputs → Except String CalculationResult)
    (now : ℤ) : List (List String) → DbState →
    List BondCalculationResponse × DbState
  | [], s => ([], s)
  | batch :: rest, s =>
      let br := calcBatch calcFn now batch s
      let pr := calcParGo calcFn now rest br.2
      (br.1 ++ pr.1, pr.2)

/-- The parallel branch of `calculateMultipleBonds`: process the batches in
order, concatenating their settled responses. -/
def calcPar (calcFn : CalculationInputs → Except String CalculationResult)
    (now : ℤ) (k : ℕ) (ids : List String) (s : DbState) :
    List BondCalculationResponse × DbState :=
  calcParGo calcFn now (chunksOf k ids) s

/-- `calculateMultipleBonds(bondIds, { parallel, batchSize })` (the default
`batchSize` is 5; `onProgress` is pure reporting and is omitted). -/
def calculateMultipleBonds
    (calcFn : CalculationInputs → Except String CalculationResult)
    (bondIds : List String) (parallel : Bool) (batchSize : ℕ) (now : ℤ)
    (s : DbState) : Except String (List BondCalculationResponse × DbState) :=
  if parallel then .ok (calcPar calcFn now batchSize bondIds s)
  else calcSeq calcFn now bondIds s

/-! ### The UI input builder (`buildCalculationInputs` of `Step4Dynamic.tsx`) -/

/-- Numeric value of a digit string. -/
def digitsVal (cs : List Char) : ℕ :=
  cs.foldl (fun a c => a * 10 + (c.toNat - 48)) 0

/-- `parseInt(str)` (radix 10): skip leading whitespace, optional sign,
then a digit prefix; `none` models `NaN`. -/
def jsParseInt (str : String) : Option ℤ :=
  let cs := str.toList.dropWhile (fun c => c.isWhitespace)
  let signed : ℤ × List Char :=
    match cs with
    | '-' :: rest => (-1, rest)
    | '+' :: rest => (1, rest)
    | _ => (1, cs)
  let digits := signed.2.takeWhile (fun c => c.isDigit)
  if digits.isEmpty then none else some (signed.1 * (digitsVal digits : ℤ))

/-- `parseFloat(str)` restricted to plain decimal literals (the only form
produced by the wizard's numeric fields); `none` models `NaN`. -/
def jsParseFloat (str : String) : Option ℚ :=
  let cs := str.toList.dropWhile (fun c => c.isWhitespace)
  let signed : ℚ × List Char :=
    match cs with
    | '-' :: rest => (-1, rest)
    | '+' :: rest => (1, rest)
    | _ => (1, cs)
  let intPart := signed.2.takeWhile (fun c => c.isDigit)
  let rest := signed.2.dropWhile (fun c => c.isDigit)
  let fracPart :=
    match rest with
    | '.' :: tl => tl.takeWhile (fun c => c.isDigit)
    | _ => []
  if intPart.isEmpty ∧ fracPart.isEmpty then none
  else
    some (signed.1 *
      ((digitsVal intPart : ℚ) + (digitsVal fracPart : ℚ) / 10 ^ fracPart.length))

/-- The `x || 'default'` idiom on an optional string field (the empty string
is falsy in JS). -/
def strOr (o : Option String) (d : String) : String :=
  match o with
  | some s => if s = "" then d else s
  | none => d

/-- One entry of `step2.gracePeriodsConfig`. -/
structure GracePeriodConfig where
  couponNumber : ℤ
  graceType : GraceType
deriving DecidableEq, Repr

/-- The `step1` slice of the wizard state (fields read by the builder). -/
structure StepOneData where
  valorNominal : Option String
  valorComercial : Option String
  numAnios : Option String
  fechaEmision : Option String
  frecuenciaCupon : Option String
  diasPorAno : Option String
deriving DecidableEq, Repr

/-- The `step2` slice of the wizard state (fields read by the builder). -/
structure StepTwoData where
  tipoTasa : Option String
  periodicidadCapitalizacion : Option String
  tasaAnual : Option String
  tasaDescuento : Option String
  inflacionAnual : Option String
  primaVencimiento : Option String
  impuestoRenta : Option String
  gracePeriodsConfig : Option (List GracePeriodConfig)
deriving DecidableEq, Repr

/-- The `step3` slice of the wizard state (fields read by the builder). -/
structure StepThreeData where
  estructuracionEmisor : Option String
  colocacionEmisor : Option String
  flotacionEmisor : Option String
  cavaliEmisor : Option String
deriving DecidableEq, Repr

/-- The `bondData` prop of `Step4Dynamic`. -/
structure BondData where
  step1 : Option StepOneData
  step2 : Option StepTwoData
  step3 : Option StepThreeData
deriving DecidableEq, Repr

/-- Optional chaining `bondData.stepK?.field || 'default'`. -/
def fieldOr (o : Option α) (f : α → Option String) (d : String) : String :=
  match o with
  | some x => strOr (f x) d
  | none => d

/-- The object built by `buildCalculationInputs` on the client.  `Option ℚ`
fields model JS numbers that may be `NaN` (a `NaN` flows into the object
without throwing); the raw issuance-date string is passed through. -/
structure UICalculationInputs where
  valorNominal : Option ℚ
  valorComercial : Option ℚ
  numAnios : ℤ
  frecuenciaCupon : String
  diasPorAno : Option ℤ
  tipoTasa : String
  periodicidadCapitalizacion : String
  tasaAnual : Option ℚ
  tasaDescuento : Option ℚ
  impuestoRenta : Option ℚ
  fechaEmision : Option String
  primaPorcentaje : Option ℚ
  estructuracionPorcentaje : Option ℚ
  colocacionPorcentaje : Option ℚ
  flotacionPorcentaje : Option ℚ
  cavaliPorcentaje : Option ℚ
  inflacionSerie : List (Option ℚ)
  graciaSerie : List GraceType
deriving DecidableEq, Repr

/-- The grace-series construction of the builder: start from
`Array(numAnios).fill('S')` and apply each configured entry whose
`yearIndex = floor((couponNumber - 1) / 2)` is below `numAnios`.  A negative
`yearIndex` sets a non-index property on the JS array and leaves its
elements unchanged. -/
def applyGraceConfig (n : ℤ) (cfgs : List GracePeriodConfig)
    (base : List GraceType) : List GraceType :=
  cfgs.foldl
    (fun acc cfg =>
      let yearIndex := (cfg.couponNumber - 1).fdiv 2
      if yearIndex < n then
        if 0 ≤ yearIndex then acc.set yearIndex.toNat cfg.graceType else acc
      else acc)
    base

/-- `buildCalculationInputs()` of `Step4Dynamic.tsx`.  `none` models the
`RangeError` thrown by `Array(numAnios)` when `parseInt` yields `NaN` or a
negative length. -/
def buildCalculationInputs (bd : BondData) : Option UICalculationInputs :=
  match jsParseInt (fieldOr bd.step1 (fun s => s.numAnios) "5") with
  | none => none
  | some numAnios =>
      if numAnios < 0 then none
      else
        let inflacionAnual :=
          jsParseFloat (fieldOr bd.step2 (fun s => s.inflacionAnual) "0.10")
        let inflacionSerie := List.replicate numAnios.toNat inflacionAnual
        let base := List.replicate numAnios.toNat GraceType.S
        let graciaSerie :=
          match bd.step2 with
          | some s2 =>
              match s2.gracePeriodsConfig with
              | some cfgs =>
                  if cfgs.length > 0 then applyGraceConfig numAnios cfgs base
                  else base
              | none => base
          | none => base
        some
          { valorNominal :=
              jsParseFloat (fieldOr bd.step1 (fun s => s.valorNominal) "1000")
            valorComercial :=
              jsParseFloat (fieldOr bd.step1 (fun s => s.valorComercial) "1050")
            numAnios := numAnios
            frecuenciaCupon := fieldOr bd.step1 (fun s => s.frecuenciaCupon) "semestral"
            diasPorAno := jsParseInt (fieldOr bd.step1 (fun s => s.diasPorAno) "360")
            tipoTasa := fieldOr bd.step2 (fun s => s.tipoTasa) "efectiva"
            periodicidadCapitalizacion :=
              fieldOr bd.step2 (fun s => s.periodicidadCapitalizacion) "semestral"
            tasaAnual := jsParseFloat (fieldOr bd.step2 (fun s => s.tasaAnual) "0.08")
            tasaDescuento :=
              jsParseFloat (fieldOr bd.step2 (fun s => s.tasaDescuento) "0.045")
            impuestoRenta :=
              jsParseFloat (fieldOr bd.step2 (fun s => s.impuestoRenta) "0.30")
            fechaEmision :=
              match bd.step1 with
              | some s1 => s1.fechaEmision
              | none => none
            primaPorcentaje :=
              jsParseFloat (fieldOr bd.step2 (fun s => s.primaVencimiento) "0.01")
            estructuracionPorcentaje :=
              (jsParseFloat (fieldOr bd.step3 (fun s => s.estructuracionEmisor) "0.01")).map
                (fun q => q / 100)
            colocacionPorcentaje :=
              (jsParseFloat (fieldOr bd.step3 (fun s => s.colocacionEmisor) "0.25")).map
                (fun q => q / 100)
            flotacionPorcentaje :=
              (jsParseFloat (fieldOr bd.step3 (fun s => s.flotacionEmisor) "0.45")).map
                (fun q => q / 100)
            cavaliPorcentaje :=
              (jsParseFloat (fieldOr bd.step3 (fun s => s.cavaliEmisor) "0.50")).map
                (fun q => q / 100)
            inflacionSerie := inflacionSerie
            graciaSerie := graciaSerie }

/-! ### The root finder

`FinancialCalculator` and its `RootFinder` live in
`lib/services/calculations/`, which is not part of the provided sources;
only the constructor wiring the precision settings (tolerance `1e-8`,
`ROUND_HALF_UP`, 6 decimal places) is visible.  The solver below is
modelled from the spec. -/

/-- The configured root-finding tolerance (`PrecisionConfig.tolerance =
1e-8` in the service constructor). -/
def tolerance : ℚ := 1 / 100000000

/-- Modelled from the spec: `NPV(flows, r) = Σ flow[p] / (1+r)^(p/m)`.
Discounting is stated on the per-period rate (integer exponents), the
annualized factor `(1+r)^(p/m)` being exactly `(1+i)^p` for the per-period
rate `i = (1+r)^(1/m) - 1`. -/
def npv (flows : List ℚ) (r : ℚ) : ℚ :=
  (flows.enum.map (fun pf => pf.2 / (1 + r) ^ pf.1)).sum

/-- Modelled from the spec: the bracketing-and-bisection refinement of
`RootFinder` (source not under `src/`): stop as soon as
`|NPV(mid)| < tolerance`, otherwise keep the sign-changing half; exhausting
the iteration budget is a `ConvergenceError`. -/
def bisect (f : ℚ → ℚ) : ℕ → ℚ → ℚ → Except String ℚ
  | 0, _, _ => .error "ConvergenceError: no convergence within iteration budget"
  | n + 1, lo, hi =>
      let mid := (lo + hi) / 2
      if |f mid| < tolerance then .ok mid
      else if f lo * f mid < 0 then bisect f n lo mid
      else bisect f n mid hi

/-- Modelled from the spec: `solveEffectiveRate(flows)` — start from the
bracket `[-0.99, 10.0]`, fail with `ConvergenceError` when the bracketed
values never change sign, otherwise bisect with a budget of 200
iterations. -/
def solveEffectiveRate (flows : List ℚ) : Except String ℚ :=
  if npv flows (-99 / 100) * npv flows 10 > 0 then
    .error "ConvergenceError: bracket endpoints do not change sign"
  else bisect (npv flows) 200 (-99 / 100) 10

/-! ### Small generic helpers -/

/-- Whether an `Except` is a success. -/
def isOkB : Except ε α → Bool
  | .ok _ => true
  | .error _ => false

/-- The success value of an `Except`, with a fallback. -/
def getOkD : Except ε α → α → α
  | .ok a, _ => a
  | .error _, d => d

/-! ### Concrete sample data used to instantiate the theorems -/

/-- A sample cost structure. -/
def exCosts : Costs :=
  { estructuracionPct := 1 / 100, colocacionPct := 1 / 400
    flotacionPct := 9 / 2000, cavaliPct := 1 / 200 }

/-- A sample two-year bond. -/
def exBond1 : Bond :=
  { id := "cbond00001", name := "Bono VAC", valorNominal := 1000
    valorComercial := 1050, numAnios := 2, frecuenciaCupon := .semestral
    baseDias := 360, tipoTasa := .efectiva
    periodicidadCapitalizacion := .semestral, tasaAnual := 8 / 100
    impuestoRenta := 3 / 10, fechaEmision := 0, primaVencimiento := 1 / 100
    status := .DRAFT, costs := some exCosts }

/-- A stored inputs row whose inflation series is too short (length 1 for a
two-year bond). -/
def exRec1 : CalcInputsRecord :=
  { id := "ci1", bondId := "cbond00001"
    inflacionSerie := .arr [.num (1 / 10)]
    graciaSerie := .arr [.str "S", .str "S"] }

/-- A database holding `exBond1` with the malformed series row. -/
def exState1 : DbState :=
  { bonds := [exBond1], calcInputs := [exRec1], cashFlows := []
    metrics := [], calcResults := [] }

/-- A sample generated period. -/
def exFlow1 : FlowOut :=
  { periodo := 0, fecha := 0, inflacionAnual := none
    inflacionSemestral := none, gracia := .S, bonoCapital := some 1000
    bonoIndexado := some 1000, cupon := none, amortizacion := none
    cuota := none, prima := none, escudoFiscal := none
    flujoEmisor := some 1039, flujoEmisorConEscudo := some 1039
    flujoBonista := some (-1055), flujoActualizado := none
    faPlazoPonderado := none, factorConvexidad := none }

/-- A sample calculator result with one period. -/
def exResult1 : CalculationResult :=
  { flujos := [exFlow1]
    metricas :=
      { precioActual := 1050, utilidadPerdida := 11, tceaEmisor := 7 / 100
        tceaEmisorConEscudo := 5 / 100, treaBonista := 6 / 100
        duracion := 18 / 10, duracionModificada := 17 / 10
        convexidad := 4, totalRatiosDecision := 58 / 10 }
    fechaCalculo := 100 }

/-- A concrete stand-in for the external calculator: it succeeds on every
input with `exResult1`. -/
def exCalcOk : CalculationInputs → Except String CalculationResult :=
  fun _ => .ok exResult1

/-- The request used by the sample runs. -/
def exReq1 : CalculateBondRequest :=
  { bondId := "cbond00001", recalculate := true, saveResults := true }

/-- Fallback calculation inputs (used only as a `getOkD` default). -/
def dfltInputs : CalculationInputs :=
  { id := "", valorNominal := 0, valorComercial := 0, numAnios := 0
    frecuenciaCupon := .anual, diasPorAno := 360, tipoTasa := .efectiva
    periodicidadCapitalizacion := .anual, tasaAnual := 0, tasaDescuento := 0
    impuestoRenta := 0, fechaEmision := 0, primaPorcentaje := 0
    estructuracionPorcentaje := 0, colocacionPorcentaje := 0
    flotacionPorcentaje := 0, cavaliPorcentaje := 0, inflacionSerie := []
    graciaSerie := [] }

/-- Fallback response (used only as a `getOkD` default). -/
def dfltResp : BondCalculationResponse :=
  failureResponse "" 0 ""

/-- Stored issuer metrics row for the cached-read sample. -/
def exEm : FinancialMetricsRecord :=
  { bondId := "cbond00001", role := .EMISOR, precioActual := 1050
    utilidadPerdida := 11, van := 11, tir := 7 / 100, tcea := some (7 / 100)
    tceaConEscudo := some (5 / 100), trea := none, duracion := 18 / 10
    duracionModificada := 17 / 10, convexidad := 4
    totalRatiosDecision := 58 / 10, fechaCalculo := 100, createdAt := 100 }

/-- Stored investor metrics row for the cached-read sample. -/
def exBm : FinancialMetricsRecord :=
  { bondId := "cbond00001", role := .BONISTA, precioActual := 1050
    utilidadPerdida := 11, van := 1050, tir := 6 / 100, tcea := none
    tceaConEscudo := none, trea := some (6 / 100), duracion := 18 / 10
    duracionModificada := 17 / 10, convexidad := 4
    totalRatiosDecision := 58 / 10, fechaCalculo := 100, createdAt := 100 }

/-- A database with one stored flow and both metric rows for `exBond1`. -/
def exStateFull : DbState :=
  { bonds := [exBond1], calcInputs := [exRec1]
    cashFlows := [toCashFlowRecord "cbond00001" exFlow1]
    metrics := [exEm, exBm], calcResults := [] }

/-- A bond that fails input validation (zero nominal value). -/
def exBondBad : Bond :=
  { exBond1 with id := "cbondbad01", valorNominal := 0 }

/-- A database holding only the invalid bond. -/
def exStateBad : DbState :=
  { bonds := [exBondBad]
    calcInputs := [{ exRec1 with bondId := "cbondbad01" }]
    cashFlows := [], metrics := [], calcResults := [] }

/-- The request targeting the invalid bond. -/
def exReqBad : CalculateBondRequest :=
  { bondId := "cbondbad01", recalculate := true, saveResults := true }

/-- The cached-read request (`recalculate = false`). -/
def exReqCached : CalculateBondRequest :=
  { bondId := "cbond00001", recalculate := false, saveResults := true }

/-- The sample cash-flow vector for the root finder (`-1` now, `2` after one
period: the per-period internal rate is `1`). -/
def wflows : List ℚ := [-1, 2]

/-- Sample wizard data for the input builder. -/
def exBD : BondData :=
  { step1 := some
      { valorNominal := some "1000", valorComercial := some "1050"
        numAnios := some "3", fechaEmision := some "2025-06-01"
        frecuenciaCupon := some "semestral", diasPorAno := some "360" }
    step2 := some
      { tipoTasa := some "efectiva", periodicidadCapitalizacion := none
        tasaAnual := some "0.08", tasaDescuento := some "0.045"
        inflacionAnual := some "0.10", primaVencimiento := some "0.01"
        impuestoRenta := some "0.30"
        gracePeriodsConfig := some [{ couponNumber := 3, graceType := .P }] }
    step3 := none }

/-- Fallback UI inputs (used only as a `getD` default). -/
def dfltUI : UICalculationInputs :=
  { valorNominal := none, valorComercial := none, numAnios := 0
    frecuenciaCupon := "", diasPorAno := none, tipoTasa := ""
    periodicidadCapitalizacion := "", tasaAnual := none, tasaDescuento := none
    impuestoRenta := none, fechaEmision := none, primaPorcentaje := none
    estructuracionPorcentaje := none, colocacionPorcentaje := none
    flotacionPorcentaje := none, cavaliPorcentaje := none
    inflacionSerie := [], graciaSerie := [] }

/-- The inputs the builder produces for `exBD`. -/
def exUI : UICalculationInputs := (buildCalculationInputs exBD).getD dfltUI

/-- The converted inputs and post-repair state for `exBond1`. -/
def exConvertPair : CalculationInputs × DbState :=
  getOkD (convertBondToCalculationInputs exBond1 exState1) (dfltInputs, exState1)

/-- The cached response stored for `exBond1` in `exStateFull`. -/
def exRespCached : BondCalculationResponse :=
  (getExistingCalculation exStateFull "cbond00001").getD dfltResp

/-- `Option` counterpart of `getOkD_eq`. -/
theorem getD_some_eq {α : Type} {o : Option α} {d : α} (h : o.isSome = true) :
    o = some (o.getD d) := by
  cases o with
  | some a => rfl
  | none => cases h

theorem getOkD_eq {ε α : Type} {e : Except ε α} {d : α} (h : isOkB e = true) :
    e = .ok (getOkD e d) := by
  cases e with
  | ok a => rfl
  | error msg => simp [isOkB] at h

/-! ### Auxiliary lemmas about the embedded operations -/

theorem find?_map_preserving {α : Type} (l : List α) (p : α → Bool) (f : α → α)
    (h : ∀ a, p (f a) = p a) :
    (l.map f).find? p = (l.find? p).map f := by
  induction l with
  | nil => rfl
  | cons a tl ih =>
      by_cases hp : p a = true
      · simp [List.find?_cons, h a, hp]
      · simp only [Bool.not_eq_true] at hp
        simp [List.find?_cons, h a, hp, ih]

theorem castNums_map_num (l : List ℚ) :
    castNums (.arr (l.map RawElem.num)) = l := by
  simp [castNums, List.map_map, Function.comp_def]

theorem graciaOfElem_code (g : GraceType) :
    graciaOfElem (.str g.code) = some g := by
  cases g <;> rfl

theorem castGracia_map_code (l : List GraceType) :
    castGracia (.arr (l.map (fun g => RawElem.str g.code))) = l := by
  simp [castGracia, List.map_map, Function.comp_def, graciaOfElem_code]

theorem validateInflacion_map_num (l : List ℚ) (i : ℕ) :
    validateInflacion (l.map RawElem.num) i = .ok l := by
  induction l generalizing i with
  | nil => rfl
  | cons q tl ih => simp [validateInflacion, ih]

theorem validateGracia_map_code (l : List GraceType) (i : ℕ) :
    validateGracia (l.map (fun g => RawElem.str g.code)) i = .ok l := by
  induction l generalizing i with
  | nil => rfl
  | cons g tl ih => simp [validateGracia, graciaOfElem_code, ih]

theorem validateInflacion_length {l : List RawElem} {i : ℕ} {qs : List ℚ}
    (h : validateInflacion l i = .ok qs) : qs.length = l.length := by
  induction l generalizing i qs with
  | nil =>
      simp only [validateInflacion] at h
      cases h
      rfl
  | cons e tl ih =>
      cases e <;> simp only [validateInflacion] at h
      case num q =>
        cases htl : validateInflacion tl (i + 1) with
        | ok qs' =>
            rw [htl] at h
            cases h
            simp [ih htl]
        | error msg => rw [htl] at h; cases h
      all_goals cases h

theorem validateGracia_length {l : List RawElem} {i : ℕ} {gs : List GraceType}
    (h : validateGracia l i = .ok gs) : gs.length = l.length := by
  induction l generalizing i gs with
  | nil =>
      simp only [validateGracia] at h
      cases h
      rfl
  | cons e tl ih =>
      simp only [validateGracia] at h
      cases hge : graciaOfElem e with
      | some g =>
          rw [hge] at h
          cases htl : validateGracia tl (i + 1) with
          | ok gs' =>
              rw [htl] at h
              cases h
              simp [ih htl]
          | error msg => rw [htl] at h; cases h
      | none => rw [hge] at h; cases h

theorem length_repairInflacionList {xs : RawSeries} {n : ℤ} (hn : 0 ≤ n) :
    ((repairInflacionList xs n).length : ℤ) = n := by
  unfold repairInflacionList
  by_cases hreset : seriesNeedsReset xs n = true
  · simp [hreset, Int.toNat_of_nonneg hn]
  · simp only [Bool.not_eq_true] at hreset
    cases xs with
    | notArr => simp [seriesNeedsReset] at hreset
    | arr l =>
        have hlen : (l.length : ℤ) = n := by
          by_contra hne
          simp [seriesNeedsReset, hne] at hreset
        simp [hreset, hlen]

theorem length_repairGraciaList {xs : RawSeries} {n : ℤ} (hn : 0 ≤ n) :
    ((repairGraciaList xs n).length : ℤ) = n := by
  unfold repairGraciaList
  by_cases hreset : seriesNeedsReset xs n = true
  · simp [hreset, Int.toNat_of_nonneg hn]
  · simp only [Bool.not_eq_true] at hreset
    cases xs with
    | notArr => simp [seriesNeedsReset] at hreset
    | arr l =>
        have hlen : (l.length : ℤ) = n := by
          by_contra hne
          simp [seriesNeedsReset, hne] at hreset
        simp [hreset, hlen]

theorem elemIsBracketString_num (q : ℚ) :
    elemIsBracketString (.num q) = false := rfl

theorem elemIsBracketString_code (g : GraceType) :
    elemIsBracketString (.str g.code) = false := by
  cases g <;> decide

/-- The record written back by a repair is clean: the early detection of
`convertBondToCalculationInputs` finds nothing to repair in it. -/
theorem needsRepair_repairRecord (rec : CalcInputsRecord) {n : ℤ} (hn : 0 ≤ n) :
    needsRepair (repairRecord rec n).inflacionSerie
      (repairRecord rec n).graciaSerie n = false := by
  simp [needsRepair, repairRecord, List.any_map, Function.comp_def,
    elemIsBracketString_num, elemIsBracketString_code,
    length_repairInflacionList hn, length_repairGraciaList hn]

/-- The repair branch of `convertRecord`, spelled out. -/
theorem convertRecord_repair {bond : Bond} {costs : Costs}
    {rec : CalcInputsRecord}
    (hrep : needsRepair rec.inflacionSerie rec.graciaSerie bond.numAnios = true)
    (hn : 0 ≤ bond.numAnios) :
    convertRecord bond costs rec =
      .ok (mkInputs bond costs rec.id
        (repairInflacionList rec.inflacionSerie bond.numAnios)
        (repairGraciaList rec.graciaSerie bond.numAnios),
        some (repairRecord rec bond.numAnios)) := by
  have hn' : ¬bond.numAnios < 0 := by omega
  simp [convertRecord, hrep, hn', repairRecord, castNums_map_num,
    castGracia_map_code]

theorem repairRecord_infl (rec : CalcInputsRecord) (n : ℤ) :
    (repairRecord rec n).inflacionSerie =
      .arr ((repairInflacionList rec.inflacionSerie n).map RawElem.num) := rfl

theorem repairRecord_gra (rec : CalcInputsRecord) (n : ℤ) :
    (repairRecord rec n).graciaSerie =
      .arr ((repairGraciaList rec.graciaSerie n).map
        (fun g => RawElem.str g.code)) := rfl

theorem repairRecord_id (rec : CalcInputsRecord) (n : ℤ) :
    (repairRecord rec n).id = rec.id := rfl

/-- Converting a just-repaired record validates it unchanged and rebuilds
exactly the same calculation inputs. -/
theorem convertRecord_repairRecord {bond : Bond} {costs : Costs}
    (rec : CalcInputsRecord) (hn : 0 ≤ bond.numAnios) :
    convertRecord bond costs (repairRecord rec bond.numAnios) =
      .ok (mkInputs bond costs rec.id
        (repairInflacionList rec.inflacionSerie bond.numAnios)
        (repairGraciaList rec.graciaSerie bond.numAnios), none) := by
  unfold convertRecord
  rw [needsRepair_repairRecord rec hn]
  simp only [Bool.false_eq_true, if_false, repairRecord_infl, repairRecord_gra,
    repairRecord_id, validateInflacion_map_num, validateGracia_map_code]

/-- The record persisted by `setCalcInputs` is the looked-up record with the
two series replaced. -/
theorem findCalcInputs_setCalcInputs (s : DbState) (bondId : String)
    (inf gra : RawSeries) :
    findCalcInputs (setCalcInputs s bondId inf gra) bondId =
      (findCalcInputs s bondId).map
        (fun r => { r with inflacionSerie := inf, graciaSerie := gra }) := by
  unfold findCalcInputs setCalcInputs
  dsimp only
  have hbase := find?_map_preserving s.calcInputs
    (fun r => r.bondId == bondId)
    (fun r =>
      if (r.bondId == bondId) = true then
        { r with inflacionSerie := inf, graciaSerie := gra }
      else r)
    (by
      intro r
      by_cases h : r.bondId == bondId
      · simp [h]
      · simp only [Bool.not_eq_true] at h
        simp [h])
  rw [hbase]
  cases hfind : s.calcInputs.find? (fun r => r.bondId == bondId) with
  | none => rfl
  | some r =>
      have hr := List.find?_some hfind
      exact congrArg some (if_pos hr)

theorem setCalcInputs_repairRecord (s : DbState) (rec : CalcInputsRecord)
    (bondId : String) (n : ℤ) (hfind : findCalcInputs s bondId = some rec) :
    findCalcInputs (setCalcInputs s bondId
      (repairRecord rec n).inflacionSerie (repairRecord rec n).graciaSerie)
      bondId = some (repairRecord rec n) := by
  rw [findCalcInputs_setCalcInputs, hfind]
  rfl

/-- `convertBondToCalculationInputs` touches only the `calculationInputs`
table. -/
theorem convert_frame {bond : Bond} {s s' : DbState}
    {inputs : CalculationInputs}
    (h : convertBondToCalculationInputs bond s = .ok (inputs, s')) :
    s'.bonds = s.bonds ∧ s'.cashFlows = s.cashFlows ∧
      s'.metrics = s.metrics ∧ s'.calcResults = s.calcResults := by
  unfold convertBondToCalculationInputs at h
  split at h
  · cases h
  · split at h
    · cases h
    · split at h
      · cases h
      · cases h
        exact ⟨rfl, rfl, rfl, rfl⟩
      · cases h
        exact ⟨rfl, rfl, rfl, rfl⟩

/-- Inversion of `convertRecord` when it requests a write: the write only
arises from the repair branch. -/
theorem convertRecord_some_inv {bond : Bond} {costs : Costs}
    {rec rec' : CalcInputsRecord} {inputs : CalculationInputs}
    (h : convertRecord bond costs rec = .ok (inputs, some rec')) :
    needsRepair rec.inflacionSerie rec.graciaSerie bond.numAnios = true ∧
      0 ≤ bond.numAnios ∧ rec' = repairRecord rec bond.numAnios ∧
      inputs = mkInputs bond costs rec.id
        (repairInflacionList rec.inflacionSerie bond.numAnios)
        (repairGraciaList rec.graciaSerie bond.numAnios) := by
  by_cases hrep : needsRepair rec.inflacionSerie rec.graciaSerie bond.numAnios = true
  · by_cases hn : bond.numAnios < 0
    · simp [convertRecord, hrep, hn] at h
    · rw [convertRecord_repair hrep (by omega)] at h
      cases h
      exact ⟨hrep, by omega, rfl, rfl⟩
  · simp only [Bool.not_eq_true] at hrep
    simp only [convertRecord, hrep, Bool.false_eq_true, if_false] at h
    split at h
    · split at h
      · cases h
      · split at h
        · cases h
        · cases h
    · cases h
    · cases h

/-- A successful conversion is stable: re-running it on any state holding
the same (post-repair) `calculationInputs` row yields the same inputs and
performs no further write. -/
theorem convert_stable {bond : Bond} {s s' : DbState}
    {inputs : CalculationInputs}
    (h : convertBondToCalculationInputs bond s = .ok (inputs, s'))
    (σ : DbState)
    (hrec : findCalcInputs σ bond.id = findCalcInputs s' bond.id) :
    convertBondToCalculationInputs bond σ = .ok (inputs, σ) := by
  cases hcosts : bond.costs with
  | none => simp [convertBondToCalculationInputs, hcosts] at h
  | some costs =>
      cases hfind : findCalcInputs s bond.id with
      | none => simp [convertBondToCalculationInputs, hcosts, hfind] at h
      | some rec =>
          cases hcr : convertRecord bond costs rec with
          | error msg =>
              simp [convertBondToCalculationInputs, hcosts, hfind, hcr] at h
          | ok pair =>
              obtain ⟨inputs', orec⟩ := pair
              cases orec with
              | none =>
                  simp only [convertBondToCalculationInputs, hcosts, hfind, hcr,
                    Except.ok.injEq, Prod.mk.injEq] at h
                  obtain ⟨h1, h2⟩ := h
                  subst h1
                  subst h2
                  simp [convertBondToCalculationInputs, hcosts, hrec, hfind, hcr]
              | some rec' =>
                  simp only [convertBondToCalculationInputs, hcosts, hfind, hcr,
                    Except.ok.injEq, Prod.mk.injEq] at h
                  obtain ⟨h1, h2⟩ := h
                  subst h1
                  obtain ⟨hrep, hn, hrec', hinputs⟩ := convertRecord_some_inv hcr
                  subst hrec'
                  have hs : findCalcInputs σ bond.id =
                      some (repairRecord rec bond.numAnios) := by
                    rw [hrec, ← h2]
                    exact setCalcInputs_repairRecord s rec bond.id bond.numAnios hfind
                  simp [convertBondToCalculationInputs, hcosts, hs,
                    convertRecord_repairRecord rec hn, hinputs]

theorem activateIfDraft_calcInputs (s : DbState) (bondId : String) :
    (activateIfDraft s bondId).calcInputs = s.calcInputs := by
  cases h : findById s bondId with
  | none => simp [activateIfDraft, h]
  | some b =>
      by_cases hb : b.status = .DRAFT <;>
        simp [activateIfDraft, h, hb, updateBondStatus]

theorem activateIfDraft_cashFlows (s : DbState) (bondId : String) :
    (activateIfDraft s bondId).cashFlows = s.cashFlows := by
  cases h : findById s bondId with
  | none => simp [activateIfDraft, h]
  | some b =>
      by_cases hb : b.status = .DRAFT <;>
        simp [activateIfDraft, h, hb, updateBondStatus]

theorem findById_activateIfDraft (s : DbState) (bondId : String) :
    findById (activateIfDraft s bondId) bondId =
      (findById s bondId).map
        (fun b => if b.status = .DRAFT then { b with status := .ACTIVE } else b) := by
  cases h : findById s bondId with
  | none => simp [activateIfDraft, h]
  | some b =>
      by_cases hb : b.status = .DRAFT
      · simp only [activateIfDraft, h, hb, if_true, Option.map_some]
        unfold findById updateBondStatus
        dsimp only
        have hbase := find?_map_preserving s.bonds (fun x => x.id == bondId)
          (fun x => if x.id == bondId then { x with status := BondStatus.ACTIVE } else x)
          (by
            intro x
            by_cases hx : x.id == bondId
            · simp [hx]
            · simp only [Bool.not_eq_true] at hx
              simp [hx])
        rw [hbase]
        unfold findById at h
        rw [h]
        have hid : b.id = bondId := by simpa using List.find?_some h
        simp [hid, hb]
      · simp [activateIfDraft, h, hb]

theorem save_calcInputs (bondId inputsId : String) (result : CalculationResult)
    (now : ℤ) (s : DbState) :
    (saveCalculationResults bondId inputsId result now s).calcInputs =
      s.calcInputs := by
  unfold saveCalculationResults
  rw [activateIfDraft_calcInputs]
  dsimp only
  split <;> rfl

theorem findById_save (bondId inputsId : String) (result : CalculationResult)
    (now : ℤ) (s : DbState) :
    findById (saveCalculationResults bondId inputsId result now s) bondId =
      (findById s bondId).map
        (fun b => if b.status = .DRAFT then { b with status := .ACTIVE } else b) := by
  unfold saveCalculationResults
  rw [findById_activateIfDraft]
  congr 1
  unfold findById
  dsimp only
  split <;> rfl

theorem cashFlowsOf_save (bondId inputsId : String) (result : CalculationResult)
    (now : ℤ) (s : DbState) :
    cashFlowsOf (saveCalculationResults bondId inputsId result now s) bondId =
      if result.flujos.isEmpty then cashFlowsOf s bondId
      else result.flujos.map (toCashFlowRecord bondId) := by
  unfold saveCalculationResults cashFlowsOf
  rw [activateIfDraft_cashFlows]
  dsimp only
  by_cases hf : result.flujos.isEmpty
  · simp [hf]
  · simp only [hf, Bool.false_eq_true, if_false]
    rw [List.filter_append]
    have h1 : (s.cashFlows.filter (fun cf => !(cf.bondId == bondId))).filter
        (fun cf => cf.bondId == bondId) = [] := by
      rw [List.filter_filter]
      apply List.filter_eq_nil_iff.mpr
      intro a _
      by_cases ha : a.bondId == bondId <;> simp [ha]
    have h2 : (result.flujos.map (toCashFlowRecord bondId)).filter
        (fun cf => cf.bondId == bondId) =
        result.flujos.map (toCashFlowRecord bondId) := by
      apply List.filter_eq_self.mpr
      intro cf hcf
      obtain ⟨fo, hfo, rfl⟩ := List.mem_map.mp hcf
      simp [toCashFlowRecord]
    rw [h1, h2, List.nil_append]

theorem cashFlows_save_other (bondId inputsId : String)
    (result : CalculationResult) (now : ℤ) (s : DbState) :
    (saveCalculationResults bondId inputsId result now s).cashFlows.filter
        (fun cf => !(cf.bondId == bondId)) =
      s.cashFlows.filter (fun cf => !(cf.bondId == bondId)) := by
  unfold saveCalculationResults
  rw [activateIfDraft_cashFlows]
  dsimp only
  by_cases hf : result.flujos.isEmpty
  · simp [hf]
  · simp only [hf, Bool.false_eq_true, if_false]
    rw [List.filter_append]
    have h1 : (s.cashFlows.filter (fun cf => !(cf.bondId == bondId))).filter
        (fun cf => !(cf.bondId == bondId)) =
        s.cashFlows.filter (fun cf => !(cf.bondId == bondId)) := by
      rw [List.filter_filter]
      congr 1
      funext a
      by_cases ha : a.bondId == bondId <;> simp [ha]
    have h2 : (result.flujos.map (toCashFlowRecord bondId)).filter
        (fun cf => !(cf.bondId == bondId)) = [] := by
      apply List.filter_eq_nil_iff.mpr
      intro cf hcf
      obtain ⟨fo, hfo, rfl⟩ := List.mem_map.mp hcf
      simp [toCashFlowRecord]
    rw [h1, h2, List.append_nil]

theorem findCalcInputs_congr {s₁ s₂ : DbState} (bondId : String)
    (h : s₁.calcInputs = s₂.calcInputs) :
    findCalcInputs s₁ bondId = findCalcInputs s₂ bondId := by
  unfold findCalcInputs
  rw [h]

theorem validateBond_setStatus (bond : Bond) (st : BondStatus) :
    validateBondForCalculation { bond with status := st } =
      validateBondForCalculation bond := rfl

theorem convert_setStatus (bond : Bond) (st : BondStatus) (σ : DbState) :
    convertBondToCalculationInputs { bond with status := st } σ =
      convertBondToCalculationInputs bond σ := rfl

theorem getExisting_some_shape {s : DbState} {bondId : String}
    {resp : BondCalculationResponse}
    (h : getExistingCalculation s bondId = some resp) :
    resp.bondId = bondId ∧ resp.success = true := by
  unfold getExistingCalculation at h
  dsimp only at h
  split at h
  · split at h
    · cases h
      exact ⟨rfl, rfl⟩
    · cases h
  · cases h

theorem calculateBond_eq_caught
    {calcFn : CalculationInputs → Except String CalculationResult}
    {req : CalculateBondRequest} {now : ℤ} {s : DbState}
    (hcuid : isValidCuid req.bondId = true) :
    calculateBond calcFn req now s =
      .ok (calculateBondCaught calcFn req now s) := by
  simp [calculateBond, hcuid]

theorem caught_bondId
    (calcFn : CalculationInputs → Except String CalculationResult)
    (req : CalculateBondRequest) (now : ℤ) (s : DbState) :
    (calculateBondCaught calcFn req now s).1.bondId = req.bondId := by
  unfold calculateBondCaught
  split
  · rename_i resp heq
    have hex : getExistingCalculation s req.bondId = some resp := by
      by_cases hrec : req.recalculate
      · rw [if_pos hrec] at heq
        cases heq
      · rwa [if_neg hrec] at heq
    exact (getExisting_some_shape hex).1
  · split
    · rfl
    · split
      · rfl
      · split
        · rfl
        · split
          · rfl
          · split
            · split
              · rfl
              · rfl
            · rfl

theorem caught_failure_shape
    (calcFn : CalculationInputs → Except String CalculationResult)
    (req : CalculateBondRequest) (now : ℤ) (s : DbState)
    (hfail : (calculateBondCaught calcFn req now s).1.success = false) :
    (calculateBondCaught calcFn req now s).1.metricas = getEmptyMetrics ∧
      (calculateBondCaught calcFn req now s).1.flowsCount = 0 ∧
      ∃ msg, (calculateBondCaught calcFn req now s).1.errors = some [msg] := by
  revert hfail
  unfold calculateBondCaught
  split
  · rename_i resp heq
    have hex : getExistingCalculation s req.bondId = some resp := by
      by_cases hrec : req.recalculate
      · rw [if_pos hrec] at heq
        cases heq
      · rwa [if_neg hrec] at heq
    intro hfail
    rw [(getExisting_some_shape hex).2] at hfail
    cases hfail
  · split
    · exact fun _ => ⟨rfl, rfl, _, rfl⟩
    · split
      · exact fun _ => ⟨rfl, rfl, _, rfl⟩
      · split
        · exact fun _ => ⟨rfl, rfl, _, rfl⟩
        · split
          · exact fun _ => ⟨rfl, rfl, _, rfl⟩
          · split
            · split
              · exact fun _ => ⟨rfl, rfl, _, rfl⟩
              · intro hfail
                cases hfail
            · intro hfail
              cases hfail

/-- Two back-to-back fresh computations (`recalculate = true`) agree on
everything except the timestamps: same metric blocks, same flow count, same
success flag, and the same stored schedule. -/
theorem caught_run_twice
    (calcFn : CalculationInputs → Except String CalculationResult)
    (req : CalculateBondRequest) (now1 now2 : ℤ) (s : DbState)
    (hrecalc : req.recalculate = true) :
    ((calculateBondCaught calcFn req now2
        (calculateBondCaught calcFn req now1 s).2).1.metricas =
      (calculateBondCaught calcFn req now1 s).1.metricas) ∧
    ((calculateBondCaught calcFn req now2
        (calculateBondCaught calcFn req now1 s).2).1.flowsCount =
      (calculateBondCaught calcFn req now1 s).1.flowsCount) ∧
    ((calculateBondCaught calcFn req now2
        (calculateBondCaught calcFn req now1 s).2).1.success =
      (calculateBondCaught calcFn req now1 s).1.success) ∧
    (cashFlowsOf (calculateBondCaught calcFn req now2
        (calculateBondCaught calcFn req now1 s).2).2 req.bondId =
      cashFlowsOf (calculateBondCaught calcFn req now1 s).2 req.bondId) := by
  cases hb : findById s req.bondId with
  | none =>
      have e : ∀ n : ℤ, calculateBondCaught calcFn req n s =
          (failureResponse req.bondId n
            ("Bono " ++ req.bondId ++ " no encontrado"), s) := by
        intro n
        unfold calculateBondCaught
        simp [hrecalc, hb]
      simp [e now1, e now2, failureResponse]
  | some bond =>
      cases hv : validateBondForCalculation bond with
      | some msg =>
          have e : ∀ n : ℤ, calculateBondCaught calcFn req n s =
              (failureResponse req.bondId n msg, s) := by
            intro n
            unfold calculateBondCaught
            simp [hrecalc, hb, hv]
          simp [e now1, e now2, failureResponse]
      | none =>
          cases hc : convertBondToCalculationInputs bond s with
          | error msg =>
              have e : ∀ n : ℤ, calculateBondCaught calcFn req n s =
                  (failureResponse req.bondId n msg, s) := by
                intro n
                unfold calculateBondCaught
                simp [hrecalc, hb, hv, hc]
              simp [e now1, e now2, failureResponse]
          | ok pair =>
              obtain ⟨inputs, s1⟩ := pair
              obtain ⟨hbonds, hcfl, hmet, hcres⟩ := convert_frame hc
              have hb1 : findById s1 req.bondId = some bond := by
                unfold findById
                rw [hbonds]
                exact hb
              have hconv1 : convertBondToCalculationInputs bond s1 =
                  .ok (inputs, s1) := convert_stable hc s1 rfl
              cases hcalc : calcFn inputs with
              | error msg =>
                  have e1 : calculateBondCaught calcFn req now1 s =
                      (failureResponse req.bondId now1 msg, s1) := by
                    unfold calculateBondCaught
                    simp [hrecalc, hb, hv, hc, hcalc]
                  have e2 : calculateBondCaught calcFn req now2 s1 =
                      (failureResponse req.bondId now2 msg, s1) := by
                    unfold calculateBondCaught
                    simp [hrecalc, hb1, hv, hconv1, hcalc]
                  simp [e1, e2, failureResponse, formatCalculationResponse]
              | ok result =>
                  by_cases hsave : req.saveResults = true
                  · by_cases hid : inputs.id = ""
                    · have e1 : calculateBondCaught calcFn req now1 s =
                          (failureResponse req.bondId now1
                            "ID de CalculationInputs (registro de DB) no encontrado para guardar resultados.",
                            s1) := by
                        unfold calculateBondCaught
                        simp [hrecalc, hb, hv, hc, hcalc, hsave, hid]
                      have e2 : calculateBondCaught calcFn req now2 s1 =
                          (failureResponse req.bondId now2
                            "ID de CalculationInputs (registro de DB) no encontrado para guardar resultados.",
                            s1) := by
                        unfold calculateBondCaught
                        simp [hrecalc, hb1, hv, hconv1, hcalc, hsave, hid]
                      simp [e1, e2, failureResponse, formatCalculationResponse]
                    · have e1 : calculateBondCaught calcFn req now1 s =
                          (formatCalculationResponse req.bondId result,
                            saveCalculationResults req.bondId inputs.id result now1 s1) := by
                        unfold calculateBondCaught
                        simp [hrecalc, hb, hv, hc, hcalc, hsave, hid]
                      have hbond2 : findById
                          (saveCalculationResults req.bondId inputs.id result now1 s1)
                          req.bondId = some (if bond.status = .DRAFT then
                            { bond with status := .ACTIVE } else bond) := by
                        rw [findById_save, hb1]
                        rfl
                      have hfc2 : findCalcInputs
                          (saveCalculationResults req.bondId inputs.id result now1 s1)
                          bond.id = findCalcInputs s1 bond.id :=
                        findCalcInputs_congr bond.id
                          (save_calcInputs req.bondId inputs.id result now1 s1)
                      have hconv2 : convertBondToCalculationInputs bond
                          (saveCalculationResults req.bondId inputs.id result now1 s1) =
                          .ok (inputs,
                            saveCalculationResults req.bondId inputs.id result now1 s1) :=
                        convert_stable hc _ hfc2
                      have e2 : calculateBondCaught calcFn req now2
                          (saveCalculationResults req.bondId inputs.id result now1 s1) =
                          (formatCalculationResponse req.bondId result,
                            saveCalculationResults req.bondId inputs.id result now2
                              (saveCalculationResults req.bondId inputs.id result now1 s1)) := by
                        unfold calculateBondCaught
                        by_cases hst : bond.status = .DRAFT
                        · rw [if_pos hst] at hbond2
                          simp [hrecalc, hbond2, validateBond_setStatus, hv,
                            convert_setStatus, hconv2, hcalc, hsave, hid]
                        · rw [if_neg hst] at hbond2
                          simp [hrecalc, hbond2, hv, hconv2, hcalc, hsave, hid]
                      refine ⟨by simp [e1, e2, failureResponse, formatCalculationResponse], by simp [e1, e2, failureResponse, formatCalculationResponse],
                        by simp [e1, e2, failureResponse, formatCalculationResponse], ?_⟩
                      simp only [e1, e2]
                      rw [cashFlowsOf_save]
                      by_cases hfl : result.flujos.isEmpty
                      · rw [if_pos hfl]
                      · rw [if_neg hfl, cashFlowsOf_save, if_neg hfl]
                  · have e1 : calculateBondCaught calcFn req now1 s =
                        (formatCalculationResponse req.bondId result, s1) := by
                      unfold calculateBondCaught
                      simp [hrecalc, hb, hv, hc, hcalc, hsave]
                    have e2 : calculateBondCaught calcFn req now2 s1 =
                        (formatCalculationResponse req.bondId result, s1) := by
                      unfold calculateBondCaught
                      simp [hrecalc, hb1, hv, hconv1, hcalc, hsave]
                    simp [e1, e2, failureResponse, formatCalculationResponse]

theorem chunksOf_flatten_aux (k : ℕ) (hk : 0 < k) :
    ∀ (n : ℕ) (l : List String), l.length = n → (chunksOf k l).flatten = l := by
  intro n
  induction n using Nat.strong_induction_on with
  | _ n ih =>
      intro l hn
      cases l with
      | nil => simp [chunksOf]
      | cons x xs =>
          unfold chunksOf
          rw [dif_neg (Nat.pos_iff_ne_zero.mp hk)]
          rw [List.flatten_cons]
          have hlt : ((x :: xs).drop k).length < n := by
            subst hn
            simp only [List.length_drop, List.length_cons]
            omega
          rw [ih _ hlt _ rfl]
          exact List.take_append_drop k (x :: xs)

theorem chunksOf_flatten (k : ℕ) (hk : 0 < k) (l : List String) :
    (chunksOf k l).flatten = l :=
  chunksOf_flatten_aux k hk l.length l rfl

theorem chunksOf_le_aux (k : ℕ) :
    ∀ (n : ℕ) (l : List String), l.length = n →
      ∀ c ∈ chunksOf k l, c.length ≤ k := by
  intro n
  induction n using Nat.strong_induction_on with
  | _ n ih =>
      intro l hn
      cases l with
      | nil => simp [chunksOf]
      | cons x xs =>
          unfold chunksOf
          by_cases hk : k = 0
          · simp [hk]
          · rw [dif_neg hk]
            intro c hc
            rcases List.mem_cons.mp hc with hc | hc
            · subst hc
              simp [List.length_take]
            · have hlt : ((x :: xs).drop k).length < n := by
                subst hn
                simp only [List.length_drop, List.length_cons]
                omega
              exact ih _ hlt _ rfl c hc

theorem chunksOf_le (k : ℕ) (l : List String) :
    ∀ c ∈ chunksOf k l, c.length ≤ k :=
  chunksOf_le_aux k l.length l rfl

theorem processBond_ok
    {calcFn : CalculationInputs → Except String CalculationResult}
    {now : ℤ} {s : DbState} {id : String} (h : isValidCuid id = true) :
    processBond calcFn now s id =
      .ok (calculateBondCaught calcFn
        { bondId := id, recalculate := true, saveResults := true } now s) := by
  unfold processBond
  exact calculateBond_eq_caught h

theorem calcSeq_ok
    (calcFn : CalculationInputs → Except String CalculationResult) (now : ℤ) :
    ∀ (ids : List String) (s : DbState),
      (∀ id ∈ ids, isValidCuid id = true) →
      ∃ rs s', calcSeq calcFn now ids s = .ok (rs, s') ∧
        rs.map (fun r => r.bondId) = ids := by
  intro ids
  induction ids with
  | nil => exact fun s _ => ⟨[], s, rfl, rfl⟩
  | cons id rest ih =>
      intro s h
      have hid : isValidCuid id = true := h id (List.mem_cons_self id rest)
      cases hq : calculateBondCaught calcFn
          { bondId := id, recalculate := true, saveResults := true } now s with
      | mk r s1 =>
          have hp : processBond calcFn now s id = .ok (r, s1) := by
            rw [processBond_ok hid, hq]
          have hr : r.bondId = id := by
            have hbid := caught_bondId calcFn
              { bondId := id, recalculate := true, saveResults := true } now s
            rw [hq] at hbid
            exact hbid
          obtain ⟨rs, s2, hseq, hmap⟩ :=
            ih s1 (fun i hi => h i (List.mem_cons_of_mem id hi))
          refine ⟨r :: rs, s2, ?_, ?_⟩
          · simp [calcSeq, hp, hseq]
          · simp [hmap, hr]

theorem calcBatch_ok
    (calcFn : CalculationInputs → Except String CalculationResult) (now : ℤ) :
    ∀ (ids : List String) (s : DbState),
      (∀ id ∈ ids, isValidCuid id = true) →
      (calcBatch calcFn now ids s).1.map (fun r => r.bondId) = ids := by
  intro ids
  induction ids with
  | nil => exact fun s _ => rfl
  | cons id rest ih =>
      intro s h
      have hid : isValidCuid id = true := h id (List.mem_cons_self id rest)
      cases hq : calculateBondCaught calcFn
          { bondId := id, recalculate := true, saveResults := true } now s with
      | mk r s1 =>
          have hp : processBond calcFn now s id = .ok (r, s1) := by
            rw [processBond_ok hid, hq]
          have hr : r.bondId = id := by
            have hbid := caught_bondId calcFn
              { bondId := id, recalculate := true, saveResults := true } now s
            rw [hq] at hbid
            exact hbid
          have hrest := ih s1 (fun i hi => h i (List.mem_cons_of_mem id hi))
          simp [calcBatch, hp, hr, hrest]

theorem calcParGo_ok
    (calcFn : CalculationInputs → Except String CalculationResult) (now : ℤ) :
    ∀ (bs : List (List String)) (s : DbState),
      (∀ b ∈ bs, ∀ id ∈ b, isValidCuid id = true) →
      (calcParGo calcFn now bs s).1.map (fun r => r.bondId) = bs.flatten := by
  intro bs
  induction bs with
  | nil => exact fun s _ => rfl
  | cons batch rest ih =>
      intro s h
      have hbatch := calcBatch_ok calcFn now batch s
        (h batch (List.mem_cons_self batch rest))
      have hrest := ih (calcBatch calcFn now batch s).2
        (fun b hb => h b (List.mem_cons_of_mem batch hb))
      simp [calcParGo, hbatch, hrest]

theorem bisect_ok {f : ℚ → ℚ} :
    ∀ {n : ℕ} {lo hi r : ℚ}, bisect f n lo hi = .ok r → |f r| < tolerance := by
  intro n
  induction n with
  | zero =>
      intro lo hi r h
      cases h
  | succ n ih =>
      intro lo hi r h
      unfold bisect at h
      dsimp only at h
      split at h
      · rename_i htol
        cases h
        exact htol
      · split at h
        · exact ih h
        · exact ih h

theorem needsRepair_false_lengths {li lg : List RawElem} {n : ℤ}
    (h : needsRepair (.arr li) (.arr lg) n = false) :
    (li.length : ℤ) = n ∧ (lg.length : ℤ) = n := by
  simp only [needsRepair, Bool.or_eq_false_iff, bne_eq_false_iff_eq] at h
  exact ⟨h.1.1.1.2, h.1.1.2⟩

/-- Inversion of `convertRecord` when no repair happened: the stored series
were arrays that validated element-wise. -/
theorem convertRecord_none_inv {bond : Bond} {costs : Costs}
    {rec : CalcInputsRecord} {inputs : CalculationInputs}
    (h : convertRecord bond costs rec = .ok (inputs, none)) :
    needsRepair rec.inflacionSerie rec.graciaSerie bond.numAnios = false ∧
      ∃ li lg qs gs, rec.inflacionSerie = .arr li ∧ rec.graciaSerie = .arr lg ∧
        validateInflacion li 0 = .ok qs ∧ validateGracia lg 0 = .ok gs ∧
        inputs = mkInputs bond costs rec.id qs gs := by
  by_cases hrep : needsRepair rec.inflacionSerie rec.graciaSerie bond.numAnios = true
  · by_cases hn : bond.numAnios < 0
    · simp [convertRecord, hrep, hn] at h
    · rw [convertRecord_repair hrep (by omega)] at h
      cases h
  · simp only [Bool.not_eq_true] at hrep
    refine ⟨hrep, ?_⟩
    cases hinf : rec.inflacionSerie with
    | notArr =>
        rw [hinf] at hrep
        simp [needsRepair] at hrep
    | arr li =>
        cases hgra : rec.graciaSerie with
        | notArr =>
            rw [hgra] at hrep
            simp [needsRepair] at hrep
        | arr lg =>
            rw [hinf, hgra] at hrep
            cases hvi : validateInflacion li 0 with
            | error m => simp [convertRecord, hrep, hinf, hgra, hvi] at h
            | ok qs =>
                cases hvg : validateGracia lg 0 with
                | error m => simp [convertRecord, hrep, hinf, hgra, hvi, hvg] at h
                | ok gs =>
                    simp only [convertRecord, hrep, Bool.false_eq_true, if_false,
                      hinf, hgra, hvi, hvg, Except.ok.injEq, Prod.mk.injEq] at h
                    exact ⟨li, lg, qs, gs, rfl, rfl, hvi, hvg, h.1.symm⟩

/-- Every successful conversion hands the calculator series of exactly
`numAnios` elements. -/
theorem convert_series_lengths {bond : Bond} {s s' : DbState}
    {inputs : CalculationInputs}
    (h : convertBondToCalculationInputs bond s = .ok (inputs, s')) :
    inputs.numAnios = bond.numAnios ∧
      (inputs.inflacionSerie.length : ℤ) = bond.numAnios ∧
      (inputs.graciaSerie.length : ℤ) = bond.numAnios := by
  cases hcosts : bond.costs with
  | none => simp [convertBondToCalculationInputs, hcosts] at h
  | some costs =>
      cases hfind : findCalcInputs s bond.id with
      | none => simp [convertBondToCalculationInputs, hcosts, hfind] at h
      | some rec =>
          cases hcr : convertRecord bond costs rec with
          | error msg =>
              simp [convertBondToCalculationInputs, hcosts, hfind, hcr] at h
          | ok pair =>
              obtain ⟨inputs', orec⟩ := pair
              cases orec with
              | none =>
                  simp only [convertBondToCalculationInputs, hcosts, hfind, hcr,
                    Except.ok.injEq, Prod.mk.injEq] at h
                  obtain ⟨h1, h2⟩ := h
                  subst h1
                  obtain ⟨hrep, li, lg, qs, gs, hli, hlg, hvi, hvg, hinp⟩ :=
                    convertRecord_none_inv hcr
                  rw [hli, hlg] at hrep
                  obtain ⟨hl1, hl2⟩ := needsRepair_false_lengths hrep
                  subst hinp
                  refine ⟨rfl, ?_, ?_⟩
                  · simp only [mkInputs]
                    rw [validateInflacion_length hvi]
                    exact hl1
                  · simp only [mkInputs]
                    rw [validateGracia_length hvg]
                    exact hl2
              | some rec' =>
                  simp only [convertBondToCalculationInputs, hcosts, hfind, hcr,
                    Except.ok.injEq, Prod.mk.injEq] at h
                  obtain ⟨h1, h2⟩ := h
                  subst h1
                  obtain ⟨hrep, hn, hrec', hinp⟩ := convertRecord_some_inv hcr
                  subst hinp
                  exact ⟨rfl, length_repairInflacionList hn,
                    length_repairGraciaList hn⟩

theorem getExisting_none_of_missing {s : DbState} {bondId : String}
    (h : countFlows s bondId = 0 ∨ findMetrics s bondId .EMISOR = none ∨
      findMetrics s bondId .BONISTA = none) :
    getExistingCalculation s bondId = none := by
  unfold getExistingCalculation
  cases hem : findMetrics s bondId .EMISOR with
  | none => simp [hem]
  | some em =>
      cases hbm : findMetrics s bondId .BONISTA with
      | none => simp [hem, hbm]
      | some bm =>
          rcases h with h | h | h
          · simp [hem, hbm, h]
          · rw [h] at hem
            cases hem
          · rw [h] at hbm
            cases hbm

theorem caught_cached
    {calcFn : CalculationInputs → Except String CalculationResult}
    {req : CalculateBondRequest} {now : ℤ} {s : DbState}
    {resp : BondCalculationResponse} (hrecalc : req.recalculate = false)
    (hex : getExistingCalculation s req.bondId = some resp) :
    calculateBondCaught calcFn req now s = (resp, s) := by
  unfold calculateBondCaught
  simp [hrecalc, hex]

theorem caught_recalc_eq
    {calcFn : CalculationInputs → Except String CalculationResult}
    {req : CalculateBondRequest} {now : ℤ} {s : DbState}
    (hex : getExistingCalculation s req.bondId = none) :
    calculateBondCaught calcFn req now s =
      calculateBondCaught calcFn { req with recalculate := true } now s := by
  unfold calculateBondCaught
  by_cases hrecalc : req.recalculate = true <;> simp [hrecalc, hex]

theorem validateBond_invalid {bond : Bond}
    (h : bond.valorNominal ≤ 0 ∨ bond.valorComercial ≤ 0 ∨
      bond.numAnios ≤ 0 ∨ bond.tasaAnual < 0) :
    ∃ msg, validateBondForCalculation bond = some msg := by
  have hne : ((if bond.valorNominal ≤ 0 then ["Valor nominal inválido"] else []) ++
      (if bond.valorComercial ≤ 0 then ["Valor comercial inválido"] else []) ++
      (if bond.numAnios ≤ 0 then ["Número de años inválido"] else []) ++
      (if bond.tasaAnual < 0 then ["Tasa anual inválida"] else [])) ≠ [] := by
    rcases h with h | h | h | h <;> simp [h]
  unfold validateBondForCalculation
  dsimp only
  rw [if_neg hne]
  exact ⟨_, rfl⟩

theorem caught_invalid
    {calcFn : CalculationInputs → Except String CalculationResult}
    {req : CalculateBondRequest} {now : ℤ} {s : DbState} {bond : Bond}
    {msg : String}
    (hrecalc : req.recalculate = true ∨
      getExistingCalculation s req.bondId = none)
    (hb : findById s req.bondId = some bond)
    (hv : validateBondForCalculation bond = some msg) :
    calculateBondCaught calcFn req now s =
      (failureResponse req.bondId now msg, s) := by
  unfold calculateBondCaught
  have hnone : (if req.recalculate then none
      else getExistingCalculation s req.bondId) = none := by
    rcases hrecalc with h | h
    · rw [if_pos h]
    · by_cases hr : req.recalculate
      · rw [if_pos hr]
      · rw [if_neg hr]
        exact h
  rw [hnone]
  simp [hb, hv]

theorem applyGraceConfig_length (n : ℤ) (cfgs : List GracePeriodConfig) :
    ∀ base : List GraceType,
      (applyGraceConfig n cfgs base).length = base.length := by
  induction cfgs with
  | nil => exact fun base => rfl
  | cons cfg rest ih =>
      intro base
      unfold applyGraceConfig
      rw [List.foldl_cons]
      have := ih ((fun acc (cfg : GracePeriodConfig) =>
        let yearIndex := (cfg.couponNumber - 1).fdiv 2
        if yearIndex < n then
          if 0 ≤ yearIndex then acc.set yearIndex.toNat cfg.graceType else acc
        else acc) base cfg)
      unfold applyGraceConfig at this
      rw [this]
      dsimp only
      split
      · split
        · exact List.length_set base _ _
        · rfl
      · rfl

/-! ### The claims -/

/-- C7: whenever the root finder returns a rate `r` for a cash-flow vector,
the NPV of the flows discounted at `r` is zero within the configured `1e-8`
tolerance; when the bracket never changes sign or the 200-iteration budget
runs out without meeting the tolerance, it reports a `ConvergenceError`
instead of returning a rate. -/
theorem C7_rootfinder_tolerance (flows : List ℚ) (r : ℚ)
    (h : solveEffectiveRate flows = .ok r) : |npv flows r| < tolerance := by
  unfold solveEffectiveRate at h
  split at h
  · cases h
  · exact bisect_ok h

/-- Witness for C7: on the vector `[-1, 2]` the solver returns a rate, and
the NPV at that rate is below the tolerance. -/
theorem C7_witness :
    isOkB (solveEffectiveRate wflows) = true ∧
      |npv wflows (getOkD (solveEffectiveRate wflows) 0)| < tolerance := by
  have hok : isOkB (solveEffectiveRate wflows) = true := by decide
  exact ⟨hok, C7_rootfinder_tolerance wflows _ (getOkD_eq hok)⟩

/-- C5: every calculation input that reaches the calculator satisfies
`inflacionSerie.length = numAnios` and `graciaSerie.length = numAnios`: the
UI builder constructs both series with exactly `numAnios` elements, and the
conversion layer only ever hands the calculator series of exactly
`numAnios` elements (validated or rebuilt to that length). -/
theorem C5_series_length_invariant :
    (∀ (bd : BondData) (u : UICalculationInputs),
        buildCalculationInputs bd = some u →
        u.inflacionSerie.length = u.numAnios.toNat ∧
        u.graciaSerie.length = u.numAnios.toNat ∧ 0 ≤ u.numAnios) ∧
    (∀ (bond : Bond) (s s' : DbState) (inputs : CalculationInputs),
        convertBondToCalculationInputs bond s = .ok (inputs, s') →
        inputs.numAnios = bond.numAnios ∧
        (inputs.inflacionSerie.length : ℤ) = inputs.numAnios ∧
        (inputs.graciaSerie.length : ℤ) = inputs.numAnios) := by
  constructor
  · intro bd u h
    unfold buildCalculationInputs at h
    split at h
    · cases h
    · rename_i numAnios hparse
      dsimp only at h
      split at h
      · cases h
      · rename_i hneg
        cases h
        refine ⟨by simp, ?_, by dsimp only; omega⟩
        dsimp only
        split
        · split
          · split
            · rw [applyGraceConfig_length]
              simp
            · simp
          · simp
        · simp
  · intro bond s s' inputs h
    obtain ⟨h1, h2, h3⟩ := convert_series_lengths h
    exact ⟨h1, by rw [h1]; exact h2, by rw [h1]; exact h3⟩

/-- Witness for C5: the builder output for `exBD` and the conversion output
for `exBond1` both carry series of exactly `numAnios` elements. -/
theorem C5_witness :
    buildCalculationInputs exBD = some exUI ∧
      (exUI.inflacionSerie.length = exUI.numAnios.toNat ∧
        exUI.graciaSerie.length = exUI.numAnios.toNat ∧ 0 ≤ exUI.numAnios) ∧
      convertBondToCalculationInputs exBond1 exState1 =
        .ok (exConvertPair.1, exConvertPair.2) ∧
      ((exConvertPair.1.inflacionSerie.length : ℤ) = exConvertPair.1.numAnios ∧
        (exConvertPair.1.graciaSerie.length : ℤ) = exConvertPair.1.numAnios) := by
  have hb : buildCalculationInputs exBD = some exUI :=
    getD_some_eq (by decide)
  have hc : convertBondToCalculationInputs exBond1 exState1 =
      .ok (exConvertPair.1, exConvertPair.2) :=
    @getOkD_eq String (CalculationInputs × DbState)
      (convertBondToCalculationInputs exBond1 exState1)
      (dfltInputs, exState1) (by decide)
  refine ⟨hb, C5_series_length_invariant.1 exBD exUI hb, hc, ?_⟩
  obtain ⟨h1, h2, h3⟩ :=
    C5_series_length_invariant.2 exBond1 exState1 exConvertPair.2
      exConvertPair.1 hc
  exact ⟨h2, h3⟩

/-- C6: recomputation never mutates a stored schedule in place — when a
calculation result carrying at least one period is saved, every previously
stored cash-flow row of that bond is deleted and the brand-new schedule
rows are inserted (inside one transaction in the source); rows of other
bonds are untouched, and no row of the bond survives in modified form. -/
theorem C6_schedule_replaced (bondId inputsId : String)
    (result : CalculationResult) (now : ℤ) (s : DbState)
    (hfl : result.flujos ≠ []) :
    cashFlowsOf (saveCalculationResults bondId inputsId result now s) bondId =
      result.flujos.map (toCashFlowRecord bondId) ∧
    (saveCalculationResults bondId inputsId result now s).cashFlows.filter
        (fun cf => !(cf.bondId == bondId)) =
      s.cashFlows.filter (fun cf => !(cf.bondId == bondId)) := by
  have hne : result.flujos.isEmpty = false := by
    cases hl : result.flujos with
    | nil => exact absurd hl hfl
    | cons a tl => rfl
  constructor
  · rw [cashFlowsOf_save, hne]
    rfl
  · exact cashFlows_save_other bondId inputsId result now s

/-- Witness for C6: saving `exResult1` over `exStateFull` replaces the
stored schedule of the bond wholesale and leaves other rows alone. -/
theorem C6_witness :
    exResult1.flujos ≠ [] ∧
      cashFlowsOf (saveCalculationResults "cbond00001" "ci1" exResult1 5
        exStateFull) "cbond00001" =
        exResult1.flujos.map (toCashFlowRecord "cbond00001") ∧
      (saveCalculationResults "cbond00001" "ci1" exResult1 5
          exStateFull).cashFlows.filter (fun cf => !(cf.bondId == "cbond00001")) =
        exStateFull.cashFlows.filter (fun cf => !(cf.bondId == "cbond00001")) :=
  ⟨by decide,
    C6_schedule_replaced "cbond00001" "ci1" exResult1 5 exStateFull (by decide)⟩

/-- C9: saving calculation results activates draft bonds — after
`saveCalculationResults` the bond's status is `ACTIVE` when it was `DRAFT`,
and is unchanged otherwise. -/
theorem C9_draft_activation (bondId inputsId : String)
    (result : CalculationResult) (now : ℤ) (s : DbState) (b : Bond)
    (hb : findById s bondId = some b) :
    findById (saveCalculationResults bondId inputsId result now s) bondId =
      some (if b.status = .DRAFT then { b with status := .ACTIVE } else b) := by
  rw [findById_save, hb]
  rfl

/-- Witness for C9: saving results for the draft bond `exBond1` flips its
status to `ACTIVE`. -/
theorem C9_witness :
    findById exStateFull "cbond00001" = some exBond1 ∧
      findById (saveCalculationResults "cbond00001" "ci1" exResult1 5
        exStateFull) "cbond00001" =
        some (if exBond1.status = .DRAFT then { exBond1 with status := .ACTIVE }
          else exBond1) :=
  ⟨by decide,
    C9_draft_activation "cbond00001" "ci1" exResult1 5 exStateFull exBond1
      (by decide)⟩

/-- C4: a bond with non-positive nominal value, non-positive commercial
value, non-positive term, or negative annual rate makes the fresh
computation fail with the input-validation error before any schedule or
metric is computed: the result is a single failure response, the state is
untouched, and the outcome does not depend on the calculator at all (so
nothing is computed or retried). -/
theorem C4_invalid_bond_rejected
    (calcFn : CalculationInputs → Except String CalculationResult)
    (req : CalculateBondRequest) (now : ℤ) (s : DbState) (bond : Bond)
    (hcuid : isValidCuid req.bondId = true)
    (hfresh : req.recalculate = true ∨
      getExistingCalculation s req.bondId = none)
    (hb : findById s req.bondId = some bond)
    (hinv : bond.valorNominal ≤ 0 ∨ bond.valorComercial ≤ 0 ∨
      bond.numAnios ≤ 0 ∨ bond.tasaAnual < 0) :
    ∃ msg, validateBondForCalculation bond = some msg ∧
      calculateBond calcFn req now s =
        .ok (failureResponse req.bondId now msg, s) := by
  obtain ⟨msg, hv⟩ := validateBond_invalid hinv
  refine ⟨msg, hv, ?_⟩
  rw [calculateBond_eq_caught hcuid, caught_invalid hfresh hb hv]

/-- Witness for C4: the zero-nominal bond `exBondBad` is rejected with the
validation message and nothing is written. -/
theorem C4_witness :
    isValidCuid exReqBad.bondId = true ∧ exReqBad.recalculate = true ∧
      findById exStateBad exReqBad.bondId = some exBondBad ∧
      exBondBad.valorNominal ≤ 0 ∧
      ∃ msg, validateBondForCalculation exBondBad = some msg ∧
        calculateBond exCalcOk exReqBad 3 exStateBad =
          .ok (failureResponse exReqBad.bondId 3 msg, exStateBad) :=
  ⟨by decide, rfl, by decide, by decide,
    C4_invalid_bond_rejected exCalcOk exReqBad 3 exStateBad exBondBad
      (by decide) (Or.inl rfl) (by decide) (Or.inl (by decide))⟩

/-- C8: for every request whose bond id passes the cuid schema check,
`calculateBond` never propagates an exception — it returns a response whose
`bondId` echoes the request, and any internal failure surfaces as
`success = false` with all metric fields zero, `flowsCount = 0`, and the
error message in the `errors` array. -/
theorem C8_no_exception_propagation
    (calcFn : CalculationInputs → Except String CalculationResult)
    (req : CalculateBondRequest) (now : ℤ) (s : DbState)
    (hcuid : isValidCuid req.bondId = true) :
    ∃ resp s', calculateBond calcFn req now s = .ok (resp, s') ∧
      resp.bondId = req.bondId ∧
      (resp.success = false →
        resp.metricas = getEmptyMetrics ∧ resp.flowsCount = 0 ∧
        ∃ msg, resp.errors = some [msg]) := by
  refine ⟨(calculateBondCaught calcFn req now s).1,
    (calculateBondCaught calcFn req now s).2, ?_,
    caught_bondId calcFn req now s, caught_failure_shape calcFn req now s⟩
  rw [calculateBond_eq_caught hcuid]

/-- Witness for C8: the request for `exBond1` returns a response (no
exception) satisfying the failure-shape guarantee. -/
theorem C8_witness :
    isValidCuid exReq1.bondId = true ∧
      ∃ resp s', calculateBond exCalcOk exReq1 0 exState1 = .ok (resp, s') ∧
        resp.bondId = exReq1.bondId ∧
        (resp.success = false →
          resp.metricas = getEmptyMetrics ∧ resp.flowsCount = 0 ∧
          ∃ msg, resp.errors = some [msg]) :=
  ⟨by decide,
    C8_no_exception_propagation exCalcOk exReq1 0 exState1 (by decide)⟩

/-- C10: with `recalculate = false`, when the bond has stored flows plus
stored metrics for both roles, the stored values are returned as-is
(`calculatedAt` being the stored issuer calculation date) and the state is
untouched; when the flows or either metric row is missing, the call behaves
exactly like a full recomputation (`recalculate = true`). -/
theorem C10_cached_reuse
    (calcFn : CalculationInputs → Except String CalculationResult)
    (req : CalculateBondRequest) (now : ℤ) (s : DbState)
    (hcuid : isValidCuid req.bondId = true)
    (hrecalc : req.recalculate = false) :
    (∀ resp, getExistingCalculation s req.bondId = some resp →
        calculateBond calcFn req now s = .ok (resp, s) ∧ resp.success = true ∧
        ∀ em, findMetrics s req.bondId .EMISOR = some em →
          resp.calculatedAt = em.fechaCalculo) ∧
    ((countFlows s req.bondId = 0 ∨ findMetrics s req.bondId .EMISOR = none ∨
        findMetrics s req.bondId .BONISTA = none) →
      calculateBond calcFn req now s =
        calculateBond calcFn { req with recalculate := true } now s) := by
  constructor
  · intro resp hex
    refine ⟨by rw [calculateBond_eq_caught hcuid, caught_cached hrecalc hex],
      (getExisting_some_shape hex).2, ?_⟩
    intro em hem
    unfold getExistingCalculation at hex
    dsimp only at hex
    cases hbm : findMetrics s req.bondId .BONISTA with
    | none => simp [hem, hbm] at hex
    | some bm =>
        simp only [hem, hbm] at hex
        split at hex
        · cases hex
          rfl
        · cases hex
  · intro hmiss
    have hex := getExisting_none_of_missing hmiss
    have h2 : calculateBond calcFn { req with recalculate := true } now s =
        .ok (calculateBondCaught calcFn { req with recalculate := true } now s) :=
      calculateBond_eq_caught hcuid
    rw [calculateBond_eq_caught hcuid, h2, caught_recalc_eq hex]

/-- Witness for C10: on `exStateFull` the cached metrics are returned
without recomputation, with `calculatedAt` equal to the stored issuer
calculation date. -/
theorem C10_witness :
    getExistingCalculation exStateFull "cbond00001" = some exRespCached ∧
      calculateBond exCalcOk exReqCached 7 exStateFull =
        .ok (exRespCached, exStateFull) ∧
      exRespCached.success = true ∧
      exRespCached.calculatedAt = exEm.fechaCalculo := by
  have h1 : getExistingCalculation exStateFull "cbond00001" =
      some exRespCached := getD_some_eq (by decide)
  obtain ⟨hcal, hsucc, hdate⟩ :=
    (C10_cached_reuse exCalcOk exReqCached 7 exStateFull (by decide) rfl).1
      exRespCached h1
  exact ⟨h1, hcal, hsucc, hdate exEm (by decide)⟩

/-- C2: recomputing twice from identical inputs is deterministic — two
back-to-back `calculateBond` runs with `recalculate = true` produce
responses with identical metric blocks, identical flow counts and identical
success flags, and leave identical stored schedules (only the response
timestamps may differ, which the claim does not cover). -/
theorem C2_determinism
    (calcFn : CalculationInputs → Except String CalculationResult)
    (req : CalculateBondRequest) (now1 now2 : ℤ) (s : DbState)
    (hrecalc : req.recalculate = true)
    (hcuid : isValidCuid req.bondId = true) :
    ∃ r1 s1 r2 s2,
      calculateBond calcFn req now1 s = .ok (r1, s1) ∧
      calculateBond calcFn req now2 s1 = .ok (r2, s2) ∧
      r2.metricas = r1.metricas ∧ r2.flowsCount = r1.flowsCount ∧
      r2.success = r1.success ∧
      cashFlowsOf s2 req.bondId = cashFlowsOf s1 req.bondId := by
  obtain ⟨hm, hf, hs, hc⟩ := caught_run_twice calcFn req now1 now2 s hrecalc
  exact ⟨(calculateBondCaught calcFn req now1 s).1,
    (calculateBondCaught calcFn req now1 s).2,
    (calculateBondCaught calcFn req now2
      (calculateBondCaught calcFn req now1 s).2).1,
    (calculateBondCaught calcFn req now2
      (calculateBondCaught calcFn req now1 s).2).2,
    calculateBond_eq_caught hcuid, calculateBond_eq_caught hcuid,
    hm, hf, hs, hc⟩

/-- Witness for C2: two runs over `exState1` at different clock times agree
on metrics, flow count, success and stored schedule. -/
theorem C2_witness :
    exReq1.recalculate = true ∧ isValidCuid exReq1.bondId = true ∧
      ∃ r1 s1 r2 s2,
        calculateBond exCalcOk exReq1 0 exState1 = .ok (r1, s1) ∧
        calculateBond exCalcOk exReq1 1 s1 = .ok (r2, s2) ∧
        r2.metricas = r1.metricas ∧ r2.flowsCount = r1.flowsCount ∧
        r2.success = r1.success ∧
        cashFlowsOf s2 exReq1.bondId = cashFlowsOf s1 exReq1.bondId :=
  ⟨rfl, by decide,
    C2_determinism exCalcOk exReq1 0 1 exState1 rfl (by decide)⟩

/-- C1 as stated is false on the code: for the bond `exBond1`, whose stored
inflation series has length 1 instead of `numAnios = 2`, the conversion
does not raise an `InvalidInputError` — it succeeds, silently substituting
the default series `[0.03, 0.03]` for the malformed one, and the
whole `calculateBond` run then completes with `success = true`. -/
theorem C1_counterexample :
    isOkB (convertBondToCalculationInputs exBond1 exState1) = true ∧
      exConvertPair.1.inflacionSerie = [3 / 100, 3 / 100] ∧
      exRec1.inflacionSerie = .arr [.num (1 / 10)] ∧
      isOkB (calculateBond exCalcOk exReq1 0 exState1) = true ∧
      (getOkD (calculateBond exCalcOk exReq1 0 exState1)
        (dfltResp, exState1)).1.success = true := by
  refine ⟨by decide, by decide, rfl, by decide, by decide⟩

/-- C1 (amended): for every bond whose stored inflation or grace series is
not an array, has length different from the term in years, or contains
bracket-corrupted elements (with a non-negative term), the conversion does
not fail: it auto-repairs the stored row — keeping finite stored numbers
and valid grace codes, substituting the defaults 0.03 / `'S'` elsewhere,
resized to exactly `numAnios` elements — persists the repaired row, and
proceeds with the calculation on the repaired series. -/
theorem C1_amended_autorepair (bond : Bond) (s : DbState) (costs : Costs)
    (rec : CalcInputsRecord) (hcosts : bond.costs = some costs)
    (hfind : findCalcInputs s bond.id = some rec)
    (hrep : needsRepair rec.inflacionSerie rec.graciaSerie bond.numAnios = true)
    (hn : 0 ≤ bond.numAnios) :
    convertBondToCalculationInputs bond s =
      .ok (mkInputs bond costs rec.id
          (repairInflacionList rec.inflacionSerie bond.numAnios)
          (repairGraciaList rec.graciaSerie bond.numAnios),
        setCalcInputs s bond.id (repairRecord rec bond.numAnios).inflacionSerie
          (repairRecord rec bond.numAnios).graciaSerie) ∧
      ((repairInflacionList rec.inflacionSerie bond.numAnios).length : ℤ) =
        bond.numAnios ∧
      ((repairGraciaList rec.graciaSerie bond.numAnios).length : ℤ) =
        bond.numAnios := by
  refine ⟨?_, length_repairInflacionList hn, length_repairGraciaList hn⟩
  simp [convertBondToCalculationInputs, hcosts, hfind,
    convertRecord_repair hrep hn]

/-- Witness for C1 (amended): the repair path fires on `exState1` and the
conversion succeeds with the repaired series. -/
theorem C1_witness :
    exBond1.costs = some exCosts ∧
      findCalcInputs exState1 exBond1.id = some exRec1 ∧
      needsRepair exRec1.inflacionSerie exRec1.graciaSerie exBond1.numAnios =
        true ∧
      (0 : ℤ) ≤ exBond1.numAnios ∧
      convertBondToCalculationInputs exBond1 exState1 =
        .ok (mkInputs exBond1 exCosts exRec1.id
            (repairInflacionList exRec1.inflacionSerie exBond1.numAnios)
            (repairGraciaList exRec1.graciaSerie exBond1.numAnios),
          setCalcInputs exState1 exBond1.id
            (repairRecord exRec1 exBond1.numAnios).inflacionSerie
            (repairRecord exRec1 exBond1.numAnios).graciaSerie) :=
  ⟨rfl, by decide, by decide, by decide,
    (C1_amended_autorepair exBond1 exState1 exCosts exRec1 rfl (by decide)
      (by decide) (by decide)).1⟩

/-- C3 as stated is false on the code: in sequential mode, the schema
rejection of one malformed bond id escapes `processBond` as an exception
and aborts the whole loop — `calculateMultipleBonds` returns no response at
all for any id, instead of one response per bond id. -/
theorem C3_counterexample :
    calculateMultipleBonds exCalcOk ["bad-id", "cbond00001"] false 5 0
      exState1 = .error "ID de bono inválido" := rfl

/-- C3 (amended): for every list of well-formed (cuid) bond ids,
`calculateMultipleBonds` returns exactly one response per bond id, in
order; an individual bond's failure yields its own `success = false` entry
without aborting or skipping the remaining ids, and the parallel mode
processes the ids in consecutive batches of at most `batchSize` each. -/
theorem C3_amended_batch
    (calcFn : CalculationInputs → Except String CalculationResult)
    (ids : List String) (par : Bool) (k : ℕ) (now : ℤ) (s : DbState)
    (hvalid : ∀ id ∈ ids, isValidCuid id = true) (hk : 0 < k) :
    ∃ rs s', calculateMultipleBonds calcFn ids par k now s = .ok (rs, s') ∧
      rs.map (fun r => r.bondId) = ids ∧
      ∀ c ∈ chunksOf k ids, c.length ≤ k := by
  cases par with
  | false =>
      obtain ⟨rs, s', hseq, hmap⟩ := calcSeq_ok calcFn now ids s hvalid
      exact ⟨rs, s', by simp [calculateMultipleBonds, hseq], hmap,
        chunksOf_le k ids⟩
  | true =>
      have hflat := chunksOf_flatten k hk ids
      have hgo := calcParGo_ok calcFn now (chunksOf k ids) s
        (fun b hb id hid =>
          hvalid id (by rw [← hflat]; exact List.mem_flatten.mpr ⟨b, hb, hid⟩))
      exact ⟨(calcPar calcFn now k ids s).1, (calcPar calcFn now k ids s).2,
        rfl, hgo.trans hflat, chunksOf_le k ids⟩

/-- Witness for C3 (amended): a singleton id list in parallel mode yields
exactly one response carrying that id. -/
theorem C3_witness :
    (∀ id ∈ ["cbond00001"], isValidCuid id = true) ∧ 0 < 5 ∧
      ∃ rs s', calculateMultipleBonds exCalcOk ["cbond00001"] true 5 0
          exState1 = .ok (rs, s') ∧
        rs.map (fun r => r.bondId) = ["cbond00001"] ∧
        ∀ c ∈ chunksOf 5 ["cbond00001"], c.length ≤ 5 :=
  ⟨by decide, by decide,
    C3_amended_batch exCalcOk ["cbond00001"] true 5 0 exState1 (by decide)
      (by decide)⟩

end BondSys
